import Mathlib

/-!
Verification development for the opcode lowering stage of the androguard
Dalvik decompiler (androguard/decompiler/opcode_ins.py).

The Python module is shallowly embedded: every opcode handler becomes a Lean
function threading the virtual-register map (a Python dict, modelled as an
association list) explicitly. Python ints are modelled as Int. A Python
exception (IndexError) is modelled by an Option-valued result. The IR node
classes live in androguard/decompiler/instruction.py, which is not part of
this repository snapshot; their constructor shapes are taken from the call
sites of opcode_ins.py together with the specification's IR taxonomy.
-/

/-- Value stored in a Constant IR node: a Python int or a string. -/
inductive CVal where
  | i (n : Int)
  | s (v : String)
deriving DecidableEq, Repr

/-- IR nodes produced by the lowering, one constructor per node class used by
opcode_ins.py. Field orders follow the constructor call sites. -/
inductive IRForm where
  | Variable (v : Int)
  | ThisParam (v : Int)
  | BaseClass (name : String) (descriptor : Option String)
  | Constant (value : CVal) (ctype : String) (descriptor : Option String)
  | AssignExpression (lhs : Option IRForm) (rhs : IRForm)
  | MoveExpression (dst src : IRForm)
  | MoveResultExpression (dst ret : IRForm)
  | MoveExceptionExpression (dst : IRForm) (ty : String)
  | BinaryExpression (op : String) (lhs rhs : IRForm) (ty : String)
  | BinaryExpression2Addr (op : String) (lhs rhs : IRForm) (ty : String)
  | BinaryExpressionLit (op : String) (lhs rhs : IRForm)
  | BinaryCompExpression (op : String) (lhs rhs : IRForm) (ty : String)
  | UnaryExpression (op : String) (operand : IRForm) (ty : String)
  | CastExpression (castStr : String) (ty : String) (operand : IRForm)
  | CheckCastExpression (operand : IRForm) (ty : String) (descriptor : Option String)
  | ArrayLoadExpression (arr idx : IRForm) (ty : Option String)
  | ArrayStoreInstruction (val arr idx : IRForm) (ty : Option String)
  | ArrayLengthExpression (arr : IRForm)
  | NewInstance (ty : String)
  | NewArrayExpression (size : IRForm) (ty : String)
  | FilledArrayExpression (szInt : Option Int) (szNode : Option IRForm)
      (ty : String) (elems : List IRForm)
  | FillArrayExpression (dst : Option IRForm) (payload : Option Nat)
  | InstanceExpression (obj : IRForm) (klass ftype fname : String)
  | InstanceInstruction (val obj : IRForm) (klass ftype fname : String)
  | StaticExpression (klass ftype fname : String)
  | StaticInstruction (val : IRForm) (klass ftype fname : String)
  | InvokeInstruction (cls nm : String) (base : IRForm) (retType : String)
      (paramTypes : List String) (args : List IRForm)
      (triple : String × String × String)
  | InvokeDirectInstruction (cls nm : String) (base : IRForm) (retType : String)
      (paramTypes : List String) (args : List IRForm)
      (triple : String × String × String)
  | InvokeStaticInstruction (cls nm : String) (base : IRForm) (retType : String)
      (paramTypes : List String) (args : List IRForm)
      (triple : String × String × String)
  | InvokeRangeInstruction (cls nm : String) (retType : String)
      (paramTypes : List String) (args : List IRForm)
      (triple : String × String × String)
  | ConditionalExpression (op : String) (a b : IRForm)
  | ConditionalZExpression (op : String) (a : IRForm)
  | SwitchExpression (operand : IRForm) (offset : Int)
  | MonitorEnterExpression (x : IRForm)
  | MonitorExitExpression (x : IRForm)
  | ThrowExpression (x : IRForm)
  | ReturnInstruction (x : Option IRForm)
  | NopExpression
deriving Repr

-- Operator tokens of the Op class, with their exact string values.
namespace Op

def CMP : String := "cmp"

def ADD : String := "+"

def SUB : String := "-"

def MUL : String := "*"

def DIV : String := "/"

def MOD : String := "%"

def AND : String := "&"

def OR : String := "|"

def XOR : String := "^"

def EQUAL : String := "=="

def NEQUAL : String := "!="

def GREATER : String := ">"

def LOWER : String := "<"

def GEQUAL : String := ">="

def LEQUAL : String := "<="

def NEG : String := "-"

def NOT : String := "~"

def INTSHL : String := "<<"

def INTSHR : String := ">>"

def LONGSHL : String := "<<"

def LONGSHR : String := ">>"

end Op

/-- The virtual-register map: a Python dict from register index to IR node,
modelled as an association list that is only ever extended with keys that
are not yet present. -/
abbrev VMap := List (Int × IRForm)

/-- Dict lookup. -/
def vlookup : VMap → Int → Option IRForm
  | [], _ => none
  | (k, n) :: m, v => if v = k then some n else vlookup m v

/-- One step of get_variables: `vmap.setdefault(v, Variable(v))`. Returns the
existing node when present, else installs and returns a fresh Variable. -/
def getVar (m : VMap) (v : Int) : IRForm × VMap :=
  match vlookup m v with
  | some n => (n, m)
  | none => (IRForm.Variable v, (v, IRForm.Variable v) :: m)

/-- get_variables on two registers, left to right. -/
def getVar2 (m : VMap) (a b : Int) : (IRForm × IRForm) × VMap :=
  let r1 := getVar m a
  let r2 := getVar r1.2 b
  ((r1.1, r2.1), r2.2)

/-- get_variables on three registers, left to right. -/
def getVar3 (m : VMap) (a b c : Int) : (IRForm × IRForm × IRForm) × VMap :=
  let r1 := getVar m a
  let r2 := getVar r1.2 b
  let r3 := getVar r2.2 c
  ((r1.1, r2.1, r3.1), r3.2)

/-- get_variables on five registers, left to right. -/
def getVar5 (m : VMap) (a b c d e : Int) :
    (IRForm × IRForm × IRForm × IRForm × IRForm) × VMap :=
  let r1 := getVar m a
  let r2 := getVar r1.2 b
  let r3 := getVar r2.2 c
  let r4 := getVar r3.2 d
  let r5 := getVar r4.2 e
  ((r1.1, r2.1, r3.1, r4.1, r5.1), r5.2)

/-- get_variables on a list of registers, left to right. -/
def getVars (m : VMap) : List Int → List IRForm × VMap
  | [] => ([], m)
  | v :: vs =>
    let r := getVar m v
    let rs := getVars r.2 vs
    (r.1 :: rs.1, rs.2)

/-- A resolved method reference, as returned by `cm.get_method_ref`. The
parameter-type list is carried already split into descriptors; the raw
prototype string and `util.get_params_type` (whose source is not in this
snapshot) are collapsed into this field. -/
structure MethodRef where
  className : String
  nm : String
  paramTypeRaw : List String
  retType : String
  triple : String × String × String

/-- The borrowed constant-pool handle `cm`: read-only resolution functions. -/
structure CM where
  getType : Int → String
  getField : Int → String × String × String
  getMethodRef : Int → MethodRef

/-- A decoded instruction record with every operand field used by the
handlers. Python ints are untyped, so all numeric fields are Int; which
fields are meaningful depends on the instruction format, exactly as in the
per-format Instruction classes. -/
structure Ins where
  A : Int := 0
  AA : Int := 0
  AAAA : Int := 0
  B : Int := 0
  BB : Int := 0
  BBBB : Int := 0
  BBBBBBBB : Int := 0
  BBBBBBBBBBBBBBBB : Int := 0
  C : Int := 0
  CC : Int := 0
  CCCC : Int := 0
  D : Int := 0
  E : Int := 0
  F : Int := 0
  G : Int := 0
  NNNN : Int := 0
  rawString : String := ""
  kindString : String := ""
  translatedKind : String := ""
  cm : CM

/-- Modelled from the spec: util.get_type (androguard/decompiler/util.py is
not in this snapshot). It converts a Dalvik type descriptor to a printable
type name; the specification does not constrain its output and no claim
depends on its value, so it is modelled as preserving the descriptor. -/
def get_type (s : String) : String := s

/-- Modelled from the spec: util.get_params_type (util.py is not in this
snapshot). It splits a prototype parameter string into a list of type
descriptors; methods here already carry that list, so it is the identity. -/
def get_params_type (l : List String) : List String := l

/-- Modelled from the spec: util.get_type_size (util.py is not in this
snapshot). A wide type (J or D) occupies two consecutive registers, every
other type one. -/
def get_type_size (t : String) : Nat :=
  if t = "J" ∨ t = "D" then 2 else 1

/-- Modelled from the spec: the per-method return-name generator
GenInvokeRetName (androguard/decompiler/graph.py is not in this snapshot).
`mint` creates a fresh placeholder Variable and pins the generator to it;
`set_to` pins the generator to an existing node. Placeholder variables are
drawn from a counter offset far above real register indices. -/
structure GenInvokeRetName where
  cnt : Nat
  ret : Option IRForm

/-- Modelled from the spec: GenInvokeRetName.new(). -/
def GenInvokeRetName.mint (g : GenInvokeRetName) : IRForm × GenInvokeRetName :=
  let v := IRForm.Variable (1000000 + Int.ofNat g.cnt)
  (v, ⟨g.cnt + 1, some v⟩)

/-- Modelled from the spec: GenInvokeRetName.set_to(var). -/
def GenInvokeRetName.set_to (g : GenInvokeRetName) (v : IRForm) : GenInvokeRetName :=
  ⟨g.cnt, some v⟩

/-- Result of get_args: the packed argument nodes (none models the
IndexError raised when slot packing runs past the supplied registers),
whether the defensive warning fired, and the updated register map. -/
structure ArgsRes where
  args : Option (List IRForm)
  warned : Bool
  vmap : VMap

/-- The register-selection loop of get_args: walk the parameter types,
take the register at the running index, and advance the index by the slot
size of the parameter type. Returns none when the index runs past the end
of the register list (Python raises IndexError there). -/
def collectArgs : List String → List Int → Nat → Option (List Int)
  | [], _, _ => some []
  | t :: ts, largs, i =>
    match largs.get? i with
    | none => none
    | some p => (collectArgs ts largs (i + get_type_size t)).map (p :: ·)

/-- The register index at which the k-th parameter is taken: the sum of the
slot sizes of the preceding parameter types. -/
def slotIndex (paramType : List String) (k : Nat) : Nat :=
  ((paramType.take k).map get_type_size).sum

/-- get_args: slot-pack the argument registers by parameter type. When the
declared parameter list is longer than the supplied registers, warn and
return the empty argument list with the map untouched. -/
def get_args (vmap : VMap) (paramType : List String) (largs : List Int) : ArgsRes :=
  if paramType.length > largs.length then
    ⟨some [], true, vmap⟩
  else
    match collectArgs paramType largs 0 with
    | none => ⟨none, false, vmap⟩
    | some regs =>
      let r := getVars vmap regs
      ⟨some r.1, false, r.2⟩

/-- list(range(a, b + 1)): the registers of a range-variant invoke. -/
def rangeList (a b : Int) : List Int :=
  (List.range (b + 1 - a).toNat).map (fun i => a + Int.ofNat i)

/-- isinstance(x, ThisParam). -/
def isThisParam : IRForm → Bool
  | .ThisParam _ => true
  | _ => false

/-- assign_const(dest_reg, cst, vmap). -/
def assign_const (destReg : Int) (cst : IRForm) (vmap : VMap) : IRForm × VMap :=
  let r := getVar vmap destReg
  (.AssignExpression (some r.1) cst, r.2)

/-- assign_cmp(val_a, val_b, val_c, cmp_type, vmap). -/
def assign_cmp (valA valB valC : Int) (cmpType : String) (vmap : VMap) :
    IRForm × VMap :=
  let r := getVar3 vmap valA valB valC
  (.AssignExpression (some r.1.1)
    (.BinaryCompExpression Op.CMP r.1.2.1 r.1.2.2 cmpType), r.2)

/-- load_array_exp(val_a, val_b, val_c, ar_type, vmap). -/
def load_array_exp (valA valB valC : Int) (arType : Option String) (vmap : VMap) :
    IRForm × VMap :=
  let r := getVar3 vmap valA valB valC
  (.AssignExpression (some r.1.1)
    (.ArrayLoadExpression r.1.2.1 r.1.2.2 arType), r.2)

/-- store_array_inst(val_a, val_b, val_c, ar_type, vmap). -/
def store_array_inst (valA valB valC : Int) (arType : Option String) (vmap : VMap) :
    IRForm × VMap :=
  let r := getVar3 vmap valA valB valC
  (.ArrayStoreInstruction r.1.1 r.1.2.1 r.1.2.2 arType, r.2)

/-- assign_cast_exp(val_a, val_b, val_op, op_type, vmap). -/
def assign_cast_exp (valA valB : Int) (valOp opType : String) (vmap : VMap) :
    IRForm × VMap :=
  let r := getVar2 vmap valA valB
  (.AssignExpression (some r.1.1) (.CastExpression valOp opType r.1.2), r.2)

/-- assign_binary_exp(ins, val_op, op_type, vmap): three-address form on
fields AA, BB, CC. -/
def assign_binary_exp (ins : Ins) (valOp opType : String) (vmap : VMap) :
    IRForm × VMap :=
  let r := getVar3 vmap ins.AA ins.BB ins.CC
  (.AssignExpression (some r.1.1)
    (.BinaryExpression valOp r.1.2.1 r.1.2.2 opType), r.2)

/-- assign_binary_2addr_exp(ins, val_op, op_type, vmap): two-address form on
fields A, B; the lhs of the inner expression is the destination itself. -/
def assign_binary_2addr_exp (ins : Ins) (valOp opType : String) (vmap : VMap) :
    IRForm × VMap :=
  let r := getVar2 vmap ins.A ins.B
  (.AssignExpression (some r.1.1)
    (.BinaryExpression2Addr valOp r.1.1 r.1.2 opType), r.2)

/-- assign_lit(op_type, val_cst, val_a, val_b, vmap). -/
def assign_lit (opType : String) (valCst valA valB : Int) (vmap : VMap) :
    IRForm × VMap :=
  let cst := IRForm.Constant (.i valCst) "I" none
  let r := getVar2 vmap valA valB
  (.AssignExpression (some r.1.1) (.BinaryExpressionLit opType r.1.2 cst), r.2)

/-- nop. -/
def nop (_ : Ins) (vmap : VMap) : IRForm × VMap :=
  (.NopExpression, vmap)

/-- move vA, vB. -/
def move (ins : Ins) (vmap : VMap) : IRForm × VMap :=
  let r := getVar2 vmap ins.A ins.B
  (.MoveExpression r.1.1 r.1.2, r.2)

/-- move/from16 vAA, vBBBB. -/
def movefrom16 (ins : Ins) (vmap : VMap) : IRForm × VMap :=
  let r := getVar2 vmap ins.AA ins.BBBB
  (.MoveExpression r.1.1 r.1.2, r.2)

/-- move/16 vAAAA, vBBBB. -/
def move16 (ins : Ins) (vmap : VMap) : IRForm × VMap :=
  let r := getVar2 vmap ins.AAAA ins.BBBB
  (.MoveExpression r.1.1 r.1.2, r.2)

/-- move-wide vA, vB. -/
def movewide (ins : Ins) (vmap : VMap) : IRForm × VMap :=
  let r := getVar2 vmap ins.A ins.B
  (.MoveExpression r.1.1 r.1.2, r.2)

/-- move-wide/from16 vAA, vBBBB. -/
def movewidefrom16 (ins : Ins) (vmap : VMap) : IRForm × VMap :=
  let r := getVar2 vmap ins.AA ins.BBBB
  (.MoveExpression r.1.1 r.1.2, r.2)

/-- move-wide/16 vAAAA, vBBBB. -/
def movewide16 (ins : Ins) (vmap : VMap) : IRForm × VMap :=
  let r := getVar2 vmap ins.AAAA ins.BBBB
  (.MoveExpression r.1.1 r.1.2, r.2)

/-- move-object vA, vB. -/
def moveobject (ins : Ins) (vmap : VMap) : IRForm × VMap :=
  let r := getVar2 vmap ins.A ins.B
  (.MoveExpression r.1.1 r.1.2, r.2)

/-- move-object/from16 vAA, vBBBB. -/
def moveobjectfrom16 (ins : Ins) (vmap : VMap) : IRForm × VMap :=
  let r := getVar2 vmap ins.AA ins.BBBB
  (.MoveExpression r.1.1 r.1.2, r.2)

/-- move-object/16 vAAAA, vBBBB. -/
def moveobject16 (ins : Ins) (vmap : VMap) : IRForm × VMap :=
  let r := getVar2 vmap ins.AAAA ins.BBBB
  (.MoveExpression r.1.1 r.1.2, r.2)

/-- move-result vAA; the third parameter is the pending invoke return. -/
def moveresult (ins : Ins) (vmap : VMap) (ret : IRForm) : IRForm × VMap :=
  let r := getVar vmap ins.AA
  (.MoveResultExpression r.1 ret, r.2)

/-- move-result-wide vAA. -/
def moveresultwide (ins : Ins) (vmap : VMap) (ret : IRForm) : IRForm × VMap :=
  let r := getVar vmap ins.AA
  (.MoveResultExpression r.1 ret, r.2)

/-- move-result-object vAA. -/
def moveresultobject (ins : Ins) (vmap : VMap) (ret : IRForm) : IRForm × VMap :=
  let r := getVar vmap ins.AA
  (.MoveResultExpression r.1 ret, r.2)

/-- move-exception vAA; the third parameter is the declared catch type. -/
def moveexception (ins : Ins) (vmap : VMap) (ty : String) : IRForm × VMap :=
  let r := getVar vmap ins.AA
  (.MoveExceptionExpression r.1 ty, r.2)

/-- return-void. -/
def returnvoid (_ : Ins) (vmap : VMap) : IRForm × VMap :=
  (.ReturnInstruction none, vmap)

/-- return vAA. -/
def return_reg (ins : Ins) (vmap : VMap) : IRForm × VMap :=
  let r := getVar vmap ins.AA
  (.ReturnInstruction (some r.1), r.2)

/-- return-wide vAA. -/
def returnwide (ins : Ins) (vmap : VMap) : IRForm × VMap :=
  let r := getVar vmap ins.AA
  (.ReturnInstruction (some r.1), r.2)

/-- return-object vAA. -/
def returnobject (ins : Ins) (vmap : VMap) : IRForm × VMap :=
  let r := getVar vmap ins.AA
  (.ReturnInstruction (some r.1), r.2)

/-- const/4 vA, B. -/
def const4 (ins : Ins) (vmap : VMap) : IRForm × VMap :=
  assign_const ins.A (.Constant (.i ins.B) "I" none) vmap

/-- const/16 vAA, BBBB. -/
def const16 (ins : Ins) (vmap : VMap) : IRForm × VMap :=
  assign_const ins.AA (.Constant (.i ins.BBBB) "I" none) vmap

/-- const vAA, BBBBBBBB. -/
def const (ins : Ins) (vmap : VMap) : IRForm × VMap :=
  assign_const ins.AA (.Constant (.i ins.BBBBBBBB) "I" none) vmap

/-- const/high16 vAA, BBBB: stores the raw 16-bit immediate. -/
def consthigh16 (ins : Ins) (vmap : VMap) : IRForm × VMap :=
  assign_const ins.AA (.Constant (.i ins.BBBB) "I" none) vmap

/-- const-wide/16 vAA, BBBB. -/
def constwide16 (ins : Ins) (vmap : VMap) : IRForm × VMap :=
  assign_const ins.AA (.Constant (.i ins.BBBB) "J" none) vmap

/-- const-wide/32 vAA, BBBBBBBB. -/
def constwide32 (ins : Ins) (vmap : VMap) : IRForm × VMap :=
  assign_const ins.AA (.Constant (.i ins.BBBBBBBB) "J" none) vmap

/-- const-wide vAA, BBBBBBBBBBBBBBBB. -/
def constwide (ins : Ins) (vmap : VMap) : IRForm × VMap :=
  assign_const ins.AA (.Constant (.i ins.BBBBBBBBBBBBBBBB) "J" none) vmap

/-- const-wide/high16 vAA, BBBB: stores the raw 16-bit immediate. -/
def constwidehigh16 (ins : Ins) (vmap : VMap) : IRForm × VMap :=
  assign_const ins.AA (.Constant (.i ins.BBBB) "J" none) vmap

/-- const-string vAA. -/
def conststring (ins : Ins) (vmap : VMap) : IRForm × VMap :=
  assign_const ins.AA (.Constant (.s ins.rawString) "Ljava/lang/String;" none) vmap

/-- const-string/jumbo vAA. -/
def conststringjumbo (ins : Ins) (vmap : VMap) : IRForm × VMap :=
  assign_const ins.AA (.Constant (.s ins.rawString) "Ljava/lang/String;" none) vmap

/-- const-class vAA, type BBBB. -/
def constclass (ins : Ins) (vmap : VMap) : IRForm × VMap :=
  assign_const ins.AA
    (.Constant (.s (get_type ins.kindString)) "Ljava/lang/Class;"
      (some ins.kindString)) vmap

/-- monitor-enter vAA. -/
def monitorenter (ins : Ins) (vmap : VMap) : IRForm × VMap :=
  let r := getVar vmap ins.AA
  (.MonitorEnterExpression r.1, r.2)

/-- monitor-exit vAA. -/
def monitorexit (ins : Ins) (vmap : VMap) : IRForm × VMap :=
  let r := getVar vmap ins.AA
  (.MonitorExitExpression r.1, r.2)

/-- check-cast vAA: one register-map lookup feeds both the assignment lhs
and the operand inside the CheckCastExpression. -/
def checkcast (ins : Ins) (vmap : VMap) : IRForm × VMap :=
  let castType := get_type ins.translatedKind
  let r := getVar vmap ins.AA
  (.AssignExpression (some r.1)
    (.CheckCastExpression r.1 castType (some ins.translatedKind)), r.2)

/-- instance-of vA, vB. -/
def instanceof (ins : Ins) (vmap : VMap) : IRForm × VMap :=
  let r := getVar2 vmap ins.A ins.B
  let regC := IRForm.BaseClass (get_type ins.translatedKind) (some ins.translatedKind)
  (.AssignExpression (some r.1.1)
    (.BinaryExpression "instanceof" r.1.2 regC "Z"), r.2)

/-- array-length vA, vB. -/
def arraylength (ins : Ins) (vmap : VMap) : IRForm × VMap :=
  let r := getVar2 vmap ins.A ins.B
  (.AssignExpression (some r.1.1) (.ArrayLengthExpression r.1.2), r.2)

/-- new-instance vAA, type BBBB. -/
def newinstance (ins : Ins) (vmap : VMap) : IRForm × VMap :=
  let r := getVar vmap ins.AA
  (.AssignExpression (some r.1) (.NewInstance (ins.cm.getType ins.BBBB)), r.2)

/-- new-array vA, vB, type CCCC. -/
def newarray (ins : Ins) (vmap : VMap) : IRForm × VMap :=
  let r := getVar2 vmap ins.A ins.B
  (.AssignExpression (some r.1.1)
    (.NewArrayExpression r.1.2 (ins.cm.getType ins.CCCC)), r.2)

/-- filled-new-array: the first A of the five nibble registers; the third
parameter is the destination supplied by the dispatch layer. -/
def fillednewarray (ins : Ins) (vmap : VMap) (ret : IRForm) : IRForm × VMap :=
  let r := getVar5 vmap ins.C ins.D ins.E ins.F ins.G
  let arrayType := ins.cm.getType ins.BBBB
  let elems := [r.1.1, r.1.2.1, r.1.2.2.1, r.1.2.2.2.1, r.1.2.2.2.2].take ins.A.toNat
  (.AssignExpression (some ret)
    (.FilledArrayExpression (some ins.A) none arrayType elems), r.2)

/-- filled-new-array/range: stores the two lookup nodes of the range start
and end registers as the element list. -/
def fillednewarrayrange (ins : Ins) (vmap : VMap) (ret : IRForm) : IRForm × VMap :=
  let r := getVar3 vmap ins.AA ins.CCCC ins.NNNN
  let arrayType := ins.cm.getType ins.BBBB
  (.AssignExpression (some ret)
    (.FilledArrayExpression none (some r.1.1) arrayType [r.1.2.1, r.1.2.2]), r.2)

/-- fill-array-data vAA; the third parameter is the looked-up payload. -/
def fillarraydata (ins : Ins) (vmap : VMap) (value : Option Nat) : IRForm × VMap :=
  let r := getVar vmap ins.AA
  (.FillArrayExpression (some r.1) value, r.2)

/-- fill-array-data-payload: sentinel node. -/
def fillarraydatapayload (_ : Ins) (vmap : VMap) : IRForm × VMap :=
  (.FillArrayExpression none none, vmap)

/-- throw vAA. -/
def throwop (ins : Ins) (vmap : VMap) : IRForm × VMap :=
  let r := getVar vmap ins.AA
  (.ThrowExpression r.1, r.2)

/-- goto. -/
def goto (_ : Ins) (vmap : VMap) : IRForm × VMap :=
  (.NopExpression, vmap)

/-- goto/16. -/
def goto16 (_ : Ins) (vmap : VMap) : IRForm × VMap :=
  (.NopExpression, vmap)

/-- goto/32. -/
def goto32 (_ : Ins) (vmap : VMap) : IRForm × VMap :=
  (.NopExpression, vmap)

/-- packed-switch vAA, BBBBBBBB. -/
def packedswitch (ins : Ins) (vmap : VMap) : IRForm × VMap :=
  let r := getVar vmap ins.AA
  (.SwitchExpression r.1 ins.BBBBBBBB, r.2)

/-- sparse-switch vAA, BBBBBBBB. -/
def sparseswitch (ins : Ins) (vmap : VMap) : IRForm × VMap :=
  let r := getVar vmap ins.AA
  (.SwitchExpression r.1 ins.BBBBBBBB, r.2)

/-- cmpl-float vAA, vBB, vCC. -/
def cmplfloat (ins : Ins) (vmap : VMap) : IRForm × VMap :=
  assign_cmp ins.AA ins.BB ins.CC "F" vmap

/-- cmpg-float vAA, vBB, vCC. -/
def cmpgfloat (ins : Ins) (vmap : VMap) : IRForm × VMap :=
  assign_cmp ins.AA ins.BB ins.CC "F" vmap

/-- cmpl-double vAA, vBB, vCC. -/
def cmpldouble (ins : Ins) (vmap : VMap) : IRForm × VMap :=
  assign_cmp ins.AA ins.BB ins.CC "D" vmap

/-- cmpg-double vAA, vBB, vCC. -/
def cmpgdouble (ins : Ins) (vmap : VMap) : IRForm × VMap :=
  assign_cmp ins.AA ins.BB ins.CC "D" vmap

/-- cmp-long vAA, vBB, vCC. -/
def cmplong (ins : Ins) (vmap : VMap) : IRForm × VMap :=
  assign_cmp ins.AA ins.BB ins.CC "J" vmap

/-- if-eq vA, vB. -/
def ifeq (ins : Ins) (vmap : VMap) : IRForm × VMap :=
  let r := getVar2 vmap ins.A ins.B
  (.ConditionalExpression Op.EQUAL r.1.1 r.1.2, r.2)

/-- if-ne vA, vB. -/
def ifne (ins : Ins) (vmap : VMap) : IRForm × VMap :=
  let r := getVar2 vmap ins.A ins.B
  (.ConditionalExpression Op.NEQUAL r.1.1 r.1.2, r.2)

/-- if-lt vA, vB. -/
def iflt (ins : Ins) (vmap : VMap) : IRForm × VMap :=
  let r := getVar2 vmap ins.A ins.B
  (.ConditionalExpression Op.LOWER r.1.1 r.1.2, r.2)

/-- if-ge vA, vB. -/
def ifge (ins : Ins) (vmap : VMap) : IRForm × VMap :=
  let r := getVar2 vmap ins.A ins.B
  (.ConditionalExpression Op.GEQUAL r.1.1 r.1.2, r.2)

/-- if-gt vA, vB. -/
def ifgt (ins : Ins) (vmap : VMap) : IRForm × VMap :=
  let r := getVar2 vmap ins.A ins.B
  (.ConditionalExpression Op.GREATER r.1.1 r.1.2, r.2)

/-- if-le vA, vB. -/
def ifle (ins : Ins) (vmap : VMap) : IRForm × VMap :=
  let r := getVar2 vmap ins.A ins.B
  (.ConditionalExpression Op.LEQUAL r.1.1 r.1.2, r.2)

/-- if-eqz vAA. -/
def ifeqz (ins : Ins) (vmap : VMap) : IRForm × VMap :=
  let r := getVar vmap ins.AA
  (.ConditionalZExpression Op.EQUAL r.1, r.2)

/-- if-nez vAA. -/
def ifnez (ins : Ins) (vmap : VMap) : IRForm × VMap :=
  let r := getVar vmap ins.AA
  (.ConditionalZExpression Op.NEQUAL r.1, r.2)

/-- if-ltz vAA. -/
def ifltz (ins : Ins) (vmap : VMap) : IRForm × VMap :=
  let r := getVar vmap ins.AA
  (.ConditionalZExpression Op.LOWER r.1, r.2)

/-- if-gez vAA. -/
def ifgez (ins : Ins) (vmap : VMap) : IRForm × VMap :=
  let r := getVar vmap ins.AA
  (.ConditionalZExpression Op.GEQUAL r.1, r.2)

/-- if-gtz vAA. -/
def ifgtz (ins : Ins) (vmap : VMap) : IRForm × VMap :=
  let r := getVar vmap ins.AA
  (.ConditionalZExpression Op.GREATER r.1, r.2)

/-- if-lez vAA. -/
def iflez (ins : Ins) (vmap : VMap) : IRForm × VMap :=
  let r := getVar vmap ins.AA
  (.ConditionalZExpression Op.LEQUAL r.1, r.2)

/-- aget vAA, vBB, vCC. -/
def aget (ins : Ins) (vmap : VMap) : IRForm × VMap :=
  load_array_exp ins.AA ins.BB ins.CC none vmap

/-- aget-wide vAA, vBB, vCC. -/
def agetwide (ins : Ins) (vmap : VMap) : IRForm × VMap :=
  load_array_exp ins.AA ins.BB ins.CC (some "W") vmap

/-- aget-object vAA, vBB, vCC. -/
def agetobject (ins : Ins) (vmap : VMap) : IRForm × VMap :=
  load_array_exp ins.AA ins.BB ins.CC (some "O") vmap

/-- aget-boolean vAA, vBB, vCC. -/
def agetboolean (ins : Ins) (vmap : VMap) : IRForm × VMap :=
  load_array_exp ins.AA ins.BB ins.CC (some "Z") vmap

/-- aget-byte vAA, vBB, vCC. -/
def agetbyte (ins : Ins) (vmap : VMap) : IRForm × VMap :=
  load_array_exp ins.AA ins.BB ins.CC (some "B") vmap

/-- aget-char vAA, vBB, vCC. -/
def agetchar (ins : Ins) (vmap : VMap) : IRForm × VMap :=
  load_array_exp ins.AA ins.BB ins.CC (some "C") vmap

/-- aget-short vAA, vBB, vCC. -/
def agetshort (ins : Ins) (vmap : VMap) : IRForm × VMap :=
  load_array_exp ins.AA ins.BB ins.CC (some "S") vmap

/-- aput vAA, vBB, vCC. -/
def aput (ins : Ins) (vmap : VMap) : IRForm × VMap :=
  store_array_inst ins.AA ins.BB ins.CC none vmap

/-- aput-wide vAA, vBB, vCC. -/
def aputwide (ins : Ins) (vmap : VMap) : IRForm × VMap :=
  store_array_inst ins.AA ins.BB ins.CC (some "W") vmap

/-- aput-object vAA, vBB, vCC. -/
def aputobject (ins : Ins) (vmap : VMap) : IRForm × VMap :=
  store_array_inst ins.AA ins.BB ins.CC (some "O") vmap

/-- aput-boolean vAA, vBB, vCC. -/
def aputboolean (ins : Ins) (vmap : VMap) : IRForm × VMap :=
  store_array_inst ins.AA ins.BB ins.CC (some "Z") vmap

/-- aput-byte vAA, vBB, vCC. -/
def aputbyte (ins : Ins) (vmap : VMap) : IRForm × VMap :=
  store_array_inst ins.AA ins.BB ins.CC (some "B") vmap

/-- aput-char vAA, vBB, vCC. -/
def aputchar (ins : Ins) (vmap : VMap) : IRForm × VMap :=
  store_array_inst ins.AA ins.BB ins.CC (some "C") vmap

/-- aput-short vAA, vBB, vCC. -/
def aputshort (ins : Ins) (vmap : VMap) : IRForm × VMap :=
  store_array_inst ins.AA ins.BB ins.CC (some "S") vmap

/-- iget vA, vB, field CCCC. -/
def iget (ins : Ins) (vmap : VMap) : IRForm × VMap :=
  let f := ins.cm.getField ins.CCCC
  let r := getVar2 vmap ins.A ins.B
  (.AssignExpression (some r.1.1)
    (.InstanceExpression r.1.2 f.1 f.2.1 f.2.2), r.2)

/-- iget-wide vA, vB, field CCCC. -/
def igetwide (ins : Ins) (vmap : VMap) : IRForm × VMap :=
  let f := ins.cm.getField ins.CCCC
  let r := getVar2 vmap ins.A ins.B
  (.AssignExpression (some r.1.1)
    (.InstanceExpression r.1.2 f.1 f.2.1 f.2.2), r.2)

/-- iget-object vA, vB, field CCCC. -/
def igetobject (ins : Ins) (vmap : VMap) : IRForm × VMap :=
  let f := ins.cm.getField ins.CCCC
  let r := getVar2 vmap ins.A ins.B
  (.AssignExpression (some r.1.1)
    (.InstanceExpression r.1.2 f.1 f.2.1 f.2.2), r.2)

/-- iget-boolean vA, vB, field CCCC. -/
def igetboolean (ins : Ins) (vmap : VMap) : IRForm × VMap :=
  let f := ins.cm.getField ins.CCCC
  let r := getVar2 vmap ins.A ins.B
  (.AssignExpression (some r.1.1)
    (.InstanceExpression r.1.2 f.1 f.2.1 f.2.2), r.2)

/-- iget-byte vA, vB, field CCCC. -/
def igetbyte (ins : Ins) (vmap : VMap) : IRForm × VMap :=
  let f := ins.cm.getField ins.CCCC
  let r := getVar2 vmap ins.A ins.B
  (.AssignExpression (some r.1.1)
    (.InstanceExpression r.1.2 f.1 f.2.1 f.2.2), r.2)

/-- iget-char vA, vB, field CCCC. -/
def igetchar (ins : Ins) (vmap : VMap) : IRForm × VMap :=
  let f := ins.cm.getField ins.CCCC
  let r := getVar2 vmap ins.A ins.B
  (.AssignExpression (some r.1.1)
    (.InstanceExpression r.1.2 f.1 f.2.1 f.2.2), r.2)

/-- iget-short vA, vB, field CCCC. -/
def igetshort (ins : Ins) (vmap : VMap) : IRForm × VMap :=
  let f := ins.cm.getField ins.CCCC
  let r := getVar2 vmap ins.A ins.B
  (.AssignExpression (some r.1.1)
    (.InstanceExpression r.1.2 f.1 f.2.1 f.2.2), r.2)

/-- iput vA, vB, field CCCC. -/
def iput (ins : Ins) (vmap : VMap) : IRForm × VMap :=
  let f := ins.cm.getField ins.CCCC
  let r := getVar2 vmap ins.A ins.B
  (.InstanceInstruction r.1.1 r.1.2 f.1 f.2.1 f.2.2, r.2)

/-- iput-wide vA, vB, field CCCC. -/
def iputwide (ins : Ins) (vmap : VMap) : IRForm × VMap :=
  let f := ins.cm.getField ins.CCCC
  let r := getVar2 vmap ins.A ins.B
  (.InstanceInstruction r.1.1 r.1.2 f.1 f.2.1 f.2.2, r.2)

/-- iput-object vA, vB, field CCCC. -/
def iputobject (ins : Ins) (vmap : VMap) : IRForm × VMap :=
  let f := ins.cm.getField ins.CCCC
  let r := getVar2 vmap ins.A ins.B
  (.InstanceInstruction r.1.1 r.1.2 f.1 f.2.1 f.2.2, r.2)

/-- iput-boolean vA, vB, field CCCC. -/
def iputboolean (ins : Ins) (vmap : VMap) : IRForm × VMap :=
  let f := ins.cm.getField ins.CCCC
  let r := getVar2 vmap ins.A ins.B
  (.InstanceInstruction r.1.1 r.1.2 f.1 f.2.1 f.2.2, r.2)

/-- iput-byte vA, vB, field CCCC. -/
def iputbyte (ins : Ins) (vmap : VMap) : IRForm × VMap :=
  let f := ins.cm.getField ins.CCCC
  let r := getVar2 vmap ins.A ins.B
  (.InstanceInstruction r.1.1 r.1.2 f.1 f.2.1 f.2.2, r.2)

/-- iput-char vA, vB, field CCCC. -/
def iputchar (ins : Ins) (vmap : VMap) : IRForm × VMap :=
  let f := ins.cm.getField ins.CCCC
  let r := getVar2 vmap ins.A ins.B
  (.InstanceInstruction r.1.1 r.1.2 f.1 f.2.1 f.2.2, r.2)

/-- iput-short vA, vB, field CCCC. -/
def iputshort (ins : Ins) (vmap : VMap) : IRForm × VMap :=
  let f := ins.cm.getField ins.CCCC
  let r := getVar2 vmap ins.A ins.B
  (.InstanceInstruction r.1.1 r.1.2 f.1 f.2.1 f.2.2, r.2)

/-- sget vAA, field BBBB. -/
def sget (ins : Ins) (vmap : VMap) : IRForm × VMap :=
  let f := ins.cm.getField ins.BBBB
  let r := getVar vmap ins.AA
  (.AssignExpression (some r.1) (.StaticExpression f.1 f.2.1 f.2.2), r.2)

/-- sget-wide vAA, field BBBB. -/
def sgetwide (ins : Ins) (vmap : VMap) : IRForm × VMap :=
  let f := ins.cm.getField ins.BBBB
  let r := getVar vmap ins.AA
  (.AssignExpression (some r.1) (.StaticExpression f.1 f.2.1 f.2.2), r.2)

/-- sget-object vAA, field BBBB. -/
def sgetobject (ins : Ins) (vmap : VMap) : IRForm × VMap :=
  let f := ins.cm.getField ins.BBBB
  let r := getVar vmap ins.AA
  (.AssignExpression (some r.1) (.StaticExpression f.1 f.2.1 f.2.2), r.2)

/-- sget-boolean vAA, field BBBB. -/
def sgetboolean (ins : Ins) (vmap : VMap) : IRForm × VMap :=
  let f := ins.cm.getField ins.BBBB
  let r := getVar vmap ins.AA
  (.AssignExpression (some r.1) (.StaticExpression f.1 f.2.1 f.2.2), r.2)

/-- sget-byte vAA, field BBBB. -/
def sgetbyte (ins : Ins) (vmap : VMap) : IRForm × VMap :=
  let f := ins.cm.getField ins.BBBB
  let r := getVar vmap ins.AA
  (.AssignExpression (some r.1) (.StaticExpression f.1 f.2.1 f.2.2), r.2)

/-- sget-char vAA, field BBBB. -/
def sgetchar (ins : Ins) (vmap : VMap) : IRForm × VMap :=
  let f := ins.cm.getField ins.BBBB
  let r := getVar vmap ins.AA
  (.AssignExpression (some r.1) (.StaticExpression f.1 f.2.1 f.2.2), r.2)

/-- sget-short vAA, field BBBB. -/
def sgetshort (ins : Ins) (vmap : VMap) : IRForm × VMap :=
  let f := ins.cm.getField ins.BBBB
  let r := getVar vmap ins.AA
  (.AssignExpression (some r.1) (.StaticExpression f.1 f.2.1 f.2.2), r.2)

/-- sput vAA, field BBBB. -/
def sput (ins : Ins) (vmap : VMap) : IRForm × VMap :=
  let f := ins.cm.getField ins.BBBB
  let r := getVar vmap ins.AA
  (.StaticInstruction r.1 f.1 f.2.1 f.2.2, r.2)

/-- sput-wide vAA, field BBBB. -/
def sputwide (ins : Ins) (vmap : VMap) : IRForm × VMap :=
  let f := ins.cm.getField ins.BBBB
  let r := getVar vmap ins.AA
  (.StaticInstruction r.1 f.1 f.2.1 f.2.2, r.2)

/-- sput-object vAA, field BBBB. -/
def sputobject (ins : Ins) (vmap : VMap) : IRForm × VMap :=
  let f := ins.cm.getField ins.BBBB
  let r := getVar vmap ins.AA
  (.StaticInstruction r.1 f.1 f.2.1 f.2.2, r.2)

/-- sput-boolean vAA, field BBBB. -/
def sputboolean (ins : Ins) (vmap : VMap) : IRForm × VMap :=
  let f := ins.cm.getField ins.BBBB
  let r := getVar vmap ins.AA
  (.StaticInstruction r.1 f.1 f.2.1 f.2.2, r.2)

/-- sput-byte vAA, field BBBB. -/
def sputbyte (ins : Ins) (vmap : VMap) : IRForm × VMap :=
  let f := ins.cm.getField ins.BBBB
  let r := getVar vmap ins.AA
  (.StaticInstruction r.1 f.1 f.2.1 f.2.2, r.2)

/-- sput-char vAA, field BBBB. -/
def sputchar (ins : Ins) (vmap : VMap) : IRForm × VMap :=
  let f := ins.cm.getField ins.BBBB
  let r := getVar vmap ins.AA
  (.StaticInstruction r.1 f.1 f.2.1 f.2.2, r.2)

/-- sput-short vAA, field BBBB. -/
def sputshort (ins : Ins) (vmap : VMap) : IRForm × VMap :=
  let f := ins.cm.getField ins.BBBB
  let r := getVar vmap ins.AA
  (.StaticInstruction r.1 f.1 f.2.1 f.2.2, r.2)

/-- invoke-virtual: args from the nibble fields D, E, F, G; receiver from C.
A none result models a Python exception escaping the handler. -/
def invokevirtual (ins : Ins) (vmap : VMap) (ret : GenInvokeRetName) :
    Option IRForm × VMap × GenInvokeRetName :=
  let method := ins.cm.getMethodRef ins.BBBB
  let clsName := get_type method.className
  let paramType := get_params_type method.paramTypeRaw
  let ga := get_args vmap paramType [ins.D, ins.E, ins.F, ins.G]
  match ga.args with
  | none => (none, ga.vmap, ret)
  | some args =>
    let rc := getVar ga.vmap ins.C
    let rr := if method.retType = "V" then ((none : Option IRForm), ret)
              else
                let n := ret.mint
                (some n.1, n.2)
    (some (.AssignExpression rr.1
      (.InvokeInstruction clsName method.nm rc.1 method.retType paramType args
        method.triple)), rc.2, rr.2)

/-- invoke-super: receiver is the synthetic BaseClass "super". -/
def invokesuper (ins : Ins) (vmap : VMap) (ret : GenInvokeRetName) :
    Option IRForm × VMap × GenInvokeRetName :=
  let method := ins.cm.getMethodRef ins.BBBB
  let clsName := get_type method.className
  let paramType := get_params_type method.paramTypeRaw
  let ga := get_args vmap paramType [ins.D, ins.E, ins.F, ins.G]
  match ga.args with
  | none => (none, ga.vmap, ret)
  | some args =>
    let superclass := IRForm.BaseClass "super" none
    let rr := if method.retType = "V" then ((none : Option IRForm), ret)
              else
                let n := ret.mint
                (some n.1, n.2)
    (some (.AssignExpression rr.1
      (.InvokeInstruction clsName method.nm superclass method.retType paramType
        args method.triple)), ga.vmap, rr.2)

/-- invoke-direct: for a void return, lhs is None when the receiver is the
ThisParam, else the receiver itself, which is also pinned into the
return-name generator. -/
def invokedirect (ins : Ins) (vmap : VMap) (ret : GenInvokeRetName) :
    Option IRForm × VMap × GenInvokeRetName :=
  let method := ins.cm.getMethodRef ins.BBBB
  let clsName := get_type method.className
  let paramType := get_params_type method.paramTypeRaw
  let ga := get_args vmap paramType [ins.D, ins.E, ins.F, ins.G]
  match ga.args with
  | none => (none, ga.vmap, ret)
  | some args =>
    let rb := getVar ga.vmap ins.C
    let rr := if method.retType = "V" then
                if isThisParam rb.1 then ((none : Option IRForm), ret)
                else (some rb.1, ret.set_to rb.1)
              else
                let n := ret.mint
                (some n.1, n.2)
    (some (.AssignExpression rr.1
      (.InvokeDirectInstruction clsName method.nm rb.1 method.retType paramType
        args method.triple)), rb.2, rr.2)

/-- invoke-static: args from C, D, E, F, G; receiver is the class itself. -/
def invokestatic (ins : Ins) (vmap : VMap) (ret : GenInvokeRetName) :
    Option IRForm × VMap × GenInvokeRetName :=
  let method := ins.cm.getMethodRef ins.BBBB
  let clsName := get_type method.className
  let paramType := get_params_type method.paramTypeRaw
  let ga := get_args vmap paramType [ins.C, ins.D, ins.E, ins.F, ins.G]
  match ga.args with
  | none => (none, ga.vmap, ret)
  | some args =>
    let base := IRForm.BaseClass clsName (some method.className)
    let rr := if method.retType = "V" then ((none : Option IRForm), ret)
              else
                let n := ret.mint
                (some n.1, n.2)
    (some (.AssignExpression rr.1
      (.InvokeStaticInstruction clsName method.nm base method.retType paramType
        args method.triple)), ga.vmap, rr.2)

/-- invoke-interface. -/
def invokeinterface (ins : Ins) (vmap : VMap) (ret : GenInvokeRetName) :
    Option IRForm × VMap × GenInvokeRetName :=
  let method := ins.cm.getMethodRef ins.BBBB
  let clsName := get_type method.className
  let paramType := get_params_type method.paramTypeRaw
  let ga := get_args vmap paramType [ins.D, ins.E, ins.F, ins.G]
  match ga.args with
  | none => (none, ga.vmap, ret)
  | some args =>
    let rc := getVar ga.vmap ins.C
    let rr := if method.retType = "V" then ((none : Option IRForm), ret)
              else
                let n := ret.mint
                (some n.1, n.2)
    (some (.AssignExpression rr.1
      (.InvokeInstruction clsName method.nm rc.1 method.retType paramType args
        method.triple)), rc.2, rr.2)

/-- invoke-virtual/range: the receiver is the first register of the range;
indexing it raises (none) when the range is empty. -/
def invokevirtualrange (ins : Ins) (vmap : VMap) (ret : GenInvokeRetName) :
    Option IRForm × VMap × GenInvokeRetName :=
  let method := ins.cm.getMethodRef ins.BBBB
  let clsName := get_type method.className
  let paramType := get_params_type method.paramTypeRaw
  match rangeList ins.CCCC ins.NNNN with
  | [] => (none, vmap, ret)
  | l0 :: rest =>
    let rt := getVar vmap l0
    let ga := get_args rt.2 paramType rest
    match ga.args with
    | none => (none, ga.vmap, ret)
    | some args =>
      let rr := if method.retType = "V" then ((none : Option IRForm), ret)
                else
                  let n := ret.mint
                  (some n.1, n.2)
      (some (.AssignExpression rr.1
        (.InvokeRangeInstruction clsName method.nm method.retType paramType
          (rt.1 :: args) method.triple)), ga.vmap, rr.2)

/-- invoke-super/range: lhs for a void return is always the looked-up first
range register, which is also pinned into the return-name generator. -/
def invokesuperrange (ins : Ins) (vmap : VMap) (ret : GenInvokeRetName) :
    Option IRForm × VMap × GenInvokeRetName :=
  let method := ins.cm.getMethodRef ins.BBBB
  let clsName := get_type method.className
  let paramType := get_params_type method.paramTypeRaw
  let largs := rangeList ins.CCCC ins.NNNN
  let ga := get_args vmap paramType (largs.drop 1)
  match ga.args with
  | none => (none, ga.vmap, ret)
  | some args =>
    let rb := getVar ga.vmap ins.CCCC
    let rr := if method.retType ≠ "V" then
                let n := ret.mint
                ((some n.1 : Option IRForm), n.2)
              else (some rb.1, ret.set_to rb.1)
    let superclass := IRForm.BaseClass "super" none
    (some (.AssignExpression rr.1
      (.InvokeRangeInstruction clsName method.nm method.retType paramType
        (superclass :: args) method.triple)), rb.2, rr.2)

/-- invoke-direct/range: lhs for a void return is always the receiver (the
first range register), which is also pinned into the return-name generator;
there is no ThisParam test in this variant. -/
def invokedirectrange (ins : Ins) (vmap : VMap) (ret : GenInvokeRetName) :
    Option IRForm × VMap × GenInvokeRetName :=
  let method := ins.cm.getMethodRef ins.BBBB
  let clsName := get_type method.className
  let paramType := get_params_type method.paramTypeRaw
  match rangeList ins.CCCC ins.NNNN with
  | [] => (none, vmap, ret)
  | l0 :: rest =>
    let rt := getVar vmap l0
    let ga := get_args rt.2 paramType rest
    match ga.args with
    | none => (none, ga.vmap, ret)
    | some args =>
      let rb := getVar ga.vmap ins.CCCC
      let rr := if method.retType ≠ "V" then
                  let n := ret.mint
                  ((some n.1 : Option IRForm), n.2)
                else (some rb.1, ret.set_to rb.1)
      (some (.AssignExpression rr.1
        (.InvokeRangeInstruction clsName method.nm method.retType paramType
          (rt.1 :: args) method.triple)), rb.2, rr.2)

/-- invoke-static/range: all range registers are arguments. -/
def invokestaticrange (ins : Ins) (vmap : VMap) (ret : GenInvokeRetName) :
    Option IRForm × VMap × GenInvokeRetName :=
  let method := ins.cm.getMethodRef ins.BBBB
  let clsName := get_type method.className
  let paramType := get_params_type method.paramTypeRaw
  let largs := rangeList ins.CCCC ins.NNNN
  let ga := get_args vmap paramType largs
  match ga.args with
  | none => (none, ga.vmap, ret)
  | some args =>
    let base := IRForm.BaseClass clsName (some method.className)
    let rr := if method.retType = "V" then ((none : Option IRForm), ret)
              else
                let n := ret.mint
                (some n.1, n.2)
    (some (.AssignExpression rr.1
      (.InvokeStaticInstruction clsName method.nm base method.retType paramType
        args method.triple)), ga.vmap, rr.2)

/-- invoke-interface/range. -/
def invokeinterfacerange (ins : Ins) (vmap : VMap) (ret : GenInvokeRetName) :
    Option IRForm × VMap × GenInvokeRetName :=
  let method := ins.cm.getMethodRef ins.BBBB
  let clsName := get_type method.className
  let paramType := get_params_type method.paramTypeRaw
  match rangeList ins.CCCC ins.NNNN with
  | [] => (none, vmap, ret)
  | l0 :: rest =>
    let rt := getVar vmap l0
    let ga := get_args rt.2 paramType rest
    match ga.args with
    | none => (none, ga.vmap, ret)
    | some args =>
      let rr := if method.retType = "V" then ((none : Option IRForm), ret)
                else
                  let n := ret.mint
                  (some n.1, n.2)
      (some (.AssignExpression rr.1
        (.InvokeRangeInstruction clsName method.nm method.retType paramType
          (rt.1 :: args) method.triple)), ga.vmap, rr.2)

/-- neg-int vA, vB. -/
def negint (ins : Ins) (vmap : VMap) : IRForm × VMap :=
  let r := getVar2 vmap ins.A ins.B
  (.AssignExpression (some r.1.1) (.UnaryExpression Op.NEG r.1.2 "I"), r.2)

/-- not-int vA, vB. -/
def notint (ins : Ins) (vmap : VMap) : IRForm × VMap :=
  let r := getVar2 vmap ins.A ins.B
  (.AssignExpression (some r.1.1) (.UnaryExpression Op.NOT r.1.2 "I"), r.2)

/-- neg-long vA, vB. -/
def neglong (ins : Ins) (vmap : VMap) : IRForm × VMap :=
  let r := getVar2 vmap ins.A ins.B
  (.AssignExpression (some r.1.1) (.UnaryExpression Op.NEG r.1.2 "J"), r.2)

/-- not-long vA, vB. -/
def notlong (ins : Ins) (vmap : VMap) : IRForm × VMap :=
  let r := getVar2 vmap ins.A ins.B
  (.AssignExpression (some r.1.1) (.UnaryExpression Op.NOT r.1.2 "J"), r.2)

/-- neg-float vA, vB. -/
def negfloat (ins : Ins) (vmap : VMap) : IRForm × VMap :=
  let r := getVar2 vmap ins.A ins.B
  (.AssignExpression (some r.1.1) (.UnaryExpression Op.NEG r.1.2 "F"), r.2)

/-- neg-double vA, vB. -/
def negdouble (ins : Ins) (vmap : VMap) : IRForm × VMap :=
  let r := getVar2 vmap ins.A ins.B
  (.AssignExpression (some r.1.1) (.UnaryExpression Op.NEG r.1.2 "D"), r.2)

/-- int-to-long vA, vB. -/
def inttolong (ins : Ins) (vmap : VMap) : IRForm × VMap :=
  assign_cast_exp ins.A ins.B "(long)" "J" vmap

/-- int-to-float vA, vB. -/
def inttofloat (ins : Ins) (vmap : VMap) : IRForm × VMap :=
  assign_cast_exp ins.A ins.B "(float)" "F" vmap

/-- int-to-double vA, vB. -/
def inttodouble (ins : Ins) (vmap : VMap) : IRForm × VMap :=
  assign_cast_exp ins.A ins.B "(double)" "D" vmap

/-- long-to-int vA, vB. -/
def longtoint (ins : Ins) (vmap : VMap) : IRForm × VMap :=
  assign_cast_exp ins.A ins.B "(int)" "I" vmap

/-- long-to-float vA, vB. -/
def longtofloat (ins : Ins) (vmap : VMap) : IRForm × VMap :=
  assign_cast_exp ins.A ins.B "(float)" "F" vmap

/-- long-to-double vA, vB. -/
def longtodouble (ins : Ins) (vmap : VMap) : IRForm × VMap :=
  assign_cast_exp ins.A ins.B "(double)" "D" vmap

/-- float-to-int vA, vB. -/
def floattoint (ins : Ins) (vmap : VMap) : IRForm × VMap :=
  assign_cast_exp ins.A ins.B "(int)" "I" vmap

/-- float-to-long vA, vB. -/
def floattolong (ins : Ins) (vmap : VMap) : IRForm × VMap :=
  assign_cast_exp ins.A ins.B "(long)" "J" vmap

/-- float-to-double vA, vB. -/
def floattodouble (ins : Ins) (vmap : VMap) : IRForm × VMap :=
  assign_cast_exp ins.A ins.B "(double)" "D" vmap

/-- double-to-int vA, vB. -/
def doubletoint (ins : Ins) (vmap : VMap) : IRForm × VMap :=
  assign_cast_exp ins.A ins.B "(int)" "I" vmap

/-- double-to-long vA, vB. -/
def doubletolong (ins : Ins) (vmap : VMap) : IRForm × VMap :=
  assign_cast_exp ins.A ins.B "(long)" "J" vmap

/-- double-to-float vA, vB. -/
def doubletofloat (ins : Ins) (vmap : VMap) : IRForm × VMap :=
  assign_cast_exp ins.A ins.B "(float)" "F" vmap

/-- int-to-byte vA, vB. -/
def inttobyte (ins : Ins) (vmap : VMap) : IRForm × VMap :=
  assign_cast_exp ins.A ins.B "(byte)" "B" vmap

/-- int-to-char vA, vB. -/
def inttochar (ins : Ins) (vmap : VMap) : IRForm × VMap :=
  assign_cast_exp ins.A ins.B "(char)" "C" vmap

/-- int-to-short vA, vB. -/
def inttoshort (ins : Ins) (vmap : VMap) : IRForm × VMap :=
  assign_cast_exp ins.A ins.B "(short)" "S" vmap

/-- add-int vAA, vBB, vCC. -/
def addint (ins : Ins) (vmap : VMap) : IRForm × VMap :=
  assign_binary_exp ins Op.ADD "I" vmap

/-- sub-int vAA, vBB, vCC. -/
def subint (ins : Ins) (vmap : VMap) : IRForm × VMap :=
  assign_binary_exp ins Op.SUB "I" vmap

/-- mul-int vAA, vBB, vCC. -/
def mulint (ins : Ins) (vmap : VMap) : IRForm × VMap :=
  assign_binary_exp ins Op.MUL "I" vmap

/-- div-int vAA, vBB, vCC. -/
def divint (ins : Ins) (vmap : VMap) : IRForm × VMap :=
  assign_binary_exp ins Op.DIV "I" vmap

/-- rem-int vAA, vBB, vCC. -/
def remint (ins : Ins) (vmap : VMap) : IRForm × VMap :=
  assign_binary_exp ins Op.MOD "I" vmap

/-- and-int vAA, vBB, vCC. -/
def andint (ins : Ins) (vmap : VMap) : IRForm × VMap :=
  assign_binary_exp ins Op.AND "I" vmap

/-- or-int vAA, vBB, vCC. -/
def orint (ins : Ins) (vmap : VMap) : IRForm × VMap :=
  assign_binary_exp ins Op.OR "I" vmap

/-- xor-int vAA, vBB, vCC. -/
def xorint (ins : Ins) (vmap : VMap) : IRForm × VMap :=
  assign_binary_exp ins Op.XOR "I" vmap

/-- shl-int vAA, vBB, vCC. -/
def shlint (ins : Ins) (vmap : VMap) : IRForm × VMap :=
  assign_binary_exp ins Op.INTSHL "I" vmap

/-- shr-int vAA, vBB, vCC. -/
def shrint (ins : Ins) (vmap : VMap) : IRForm × VMap :=
  assign_binary_exp ins Op.INTSHR "I" vmap

/-- ushr-int vAA, vBB, vCC. -/
def ushrint (ins : Ins) (vmap : VMap) : IRForm × VMap :=
  assign_binary_exp ins Op.INTSHR "I" vmap

/-- add-long vAA, vBB, vCC. -/
def addlong (ins : Ins) (vmap : VMap) : IRForm × VMap :=
  assign_binary_exp ins Op.ADD "J" vmap

/-- sub-long vAA, vBB, vCC. -/
def sublong (ins : Ins) (vmap : VMap) : IRForm × VMap :=
  assign_binary_exp ins Op.SUB "J" vmap

/-- mul-long vAA, vBB, vCC. -/
def mullong (ins : Ins) (vmap : VMap) : IRForm × VMap :=
  assign_binary_exp ins Op.MUL "J" vmap

/-- div-long vAA, vBB, vCC. -/
def divlong (ins : Ins) (vmap : VMap) : IRForm × VMap :=
  assign_binary_exp ins Op.DIV "J" vmap

/-- rem-long vAA, vBB, vCC. -/
def remlong (ins : Ins) (vmap : VMap) : IRForm × VMap :=
  assign_binary_exp ins Op.MOD "J" vmap

/-- and-long vAA, vBB, vCC. -/
def andlong (ins : Ins) (vmap : VMap) : IRForm × VMap :=
  assign_binary_exp ins Op.AND "J" vmap

/-- or-long vAA, vBB, vCC. -/
def orlong (ins : Ins) (vmap : VMap) : IRForm × VMap :=
  assign_binary_exp ins Op.OR "J" vmap

/-- xor-long vAA, vBB, vCC. -/
def xorlong (ins : Ins) (vmap : VMap) : IRForm × VMap :=
  assign_binary_exp ins Op.XOR "J" vmap

/-- shl-long vAA, vBB, vCC. -/
def shllong (ins : Ins) (vmap : VMap) : IRForm × VMap :=
  assign_binary_exp ins Op.LONGSHL "J" vmap

/-- shr-long vAA, vBB, vCC. -/
def shrlong (ins : Ins) (vmap : VMap) : IRForm × VMap :=
  assign_binary_exp ins Op.LONGSHR "J" vmap

/-- ushr-long vAA, vBB, vCC. -/
def ushrlong (ins : Ins) (vmap : VMap) : IRForm × VMap :=
  assign_binary_exp ins Op.LONGSHR "J" vmap

/-- add-float vAA, vBB, vCC. -/
def addfloat (ins : Ins) (vmap : VMap) : IRForm × VMap :=
  assign_binary_exp ins Op.ADD "F" vmap

/-- sub-float vAA, vBB, vCC. -/
def subfloat (ins : Ins) (vmap : VMap) : IRForm × VMap :=
  assign_binary_exp ins Op.SUB "F" vmap

/-- mul-float vAA, vBB, vCC. -/
def mulfloat (ins : Ins) (vmap : VMap) : IRForm × VMap :=
  assign_binary_exp ins Op.MUL "F" vmap

/-- div-float vAA, vBB, vCC. -/
def divfloat (ins : Ins) (vmap : VMap) : IRForm × VMap :=
  assign_binary_exp ins Op.DIV "F" vmap

/-- rem-float vAA, vBB, vCC. -/
def remfloat (ins : Ins) (vmap : VMap) : IRForm × VMap :=
  assign_binary_exp ins Op.MOD "F" vmap

/-- add-double vAA, vBB, vCC. -/
def adddouble (ins : Ins) (vmap : VMap) : IRForm × VMap :=
  assign_binary_exp ins Op.ADD "D" vmap

/-- sub-double vAA, vBB, vCC. -/
def subdouble (ins : Ins) (vmap : VMap) : IRForm × VMap :=
  assign_binary_exp ins Op.SUB "D" vmap

/-- mul-double vAA, vBB, vCC. -/
def muldouble (ins : Ins) (vmap : VMap) : IRForm × VMap :=
  assign_binary_exp ins Op.MUL "D" vmap

/-- div-double vAA, vBB, vCC. -/
def divdouble (ins : Ins) (vmap : VMap) : IRForm × VMap :=
  assign_binary_exp ins Op.DIV "D" vmap

/-- rem-double vAA, vBB, vCC. -/
def remdouble (ins : Ins) (vmap : VMap) : IRForm × VMap :=
  assign_binary_exp ins Op.MOD "D" vmap

/-- add-int/2addr vA, vB. -/
def addint2addr (ins : Ins) (vmap : VMap) : IRForm × VMap :=
  assign_binary_2addr_exp ins Op.ADD "I" vmap

/-- sub-int/2addr vA, vB. -/
def subint2addr (ins : Ins) (vmap : VMap) : IRForm × VMap :=
  assign_binary_2addr_exp ins Op.SUB "I" vmap

/-- mul-int/2addr vA, vB. -/
def mulint2addr (ins : Ins) (vmap : VMap) : IRForm × VMap :=
  assign_binary_2addr_exp ins Op.MUL "I" vmap

/-- div-int/2addr vA, vB. -/
def divint2addr (ins : Ins) (vmap : VMap) : IRForm × VMap :=
  assign_binary_2addr_exp ins Op.DIV "I" vmap

/-- rem-int/2addr vA, vB. -/
def remint2addr (ins : Ins) (vmap : VMap) : IRForm × VMap :=
  assign_binary_2addr_exp ins Op.MOD "I" vmap

/-- and-int/2addr vA, vB. -/
def andint2addr (ins : Ins) (vmap : VMap) : IRForm × VMap :=
  assign_binary_2addr_exp ins Op.AND "I" vmap

/-- or-int/2addr vA, vB. -/
def orint2addr (ins : Ins) (vmap : VMap) : IRForm × VMap :=
  assign_binary_2addr_exp ins Op.OR "I" vmap

/-- xor-int/2addr vA, vB. -/
def xorint2addr (ins : Ins) (vmap : VMap) : IRForm × VMap :=
  assign_binary_2addr_exp ins Op.XOR "I" vmap

/-- shl-int/2addr vA, vB. -/
def shlint2addr (ins : Ins) (vmap : VMap) : IRForm × VMap :=
  assign_binary_2addr_exp ins Op.INTSHL "I" vmap

/-- shr-int/2addr vA, vB. -/
def shrint2addr (ins : Ins) (vmap : VMap) : IRForm × VMap :=
  assign_binary_2addr_exp ins Op.INTSHR "I" vmap

/-- ushr-int/2addr vA, vB. -/
def ushrint2addr (ins : Ins) (vmap : VMap) : IRForm × VMap :=
  assign_binary_2addr_exp ins Op.INTSHR "I" vmap

/-- add-long/2addr vA, vB. -/
def addlong2addr (ins : Ins) (vmap : VMap) : IRForm × VMap :=
  assign_binary_2addr_exp ins Op.ADD "J" vmap

/-- sub-long/2addr vA, vB. -/
def sublong2addr (ins : Ins) (vmap : VMap) : IRForm × VMap :=
  assign_binary_2addr_exp ins Op.SUB "J" vmap

/-- mul-long/2addr vA, vB. -/
def mullong2addr (ins : Ins) (vmap : VMap) : IRForm × VMap :=
  assign_binary_2addr_exp ins Op.MUL "J" vmap

/-- div-long/2addr vA, vB. -/
def divlong2addr (ins : Ins) (vmap : VMap) : IRForm × VMap :=
  assign_binary_2addr_exp ins Op.DIV "J" vmap

/-- rem-long/2addr vA, vB. -/
def remlong2addr (ins : Ins) (vmap : VMap) : IRForm × VMap :=
  assign_binary_2addr_exp ins Op.MOD "J" vmap

/-- and-long/2addr vA, vB. -/
def andlong2addr (ins : Ins) (vmap : VMap) : IRForm × VMap :=
  assign_binary_2addr_exp ins Op.AND "J" vmap

/-- or-long/2addr vA, vB. -/
def orlong2addr (ins : Ins) (vmap : VMap) : IRForm × VMap :=
  assign_binary_2addr_exp ins Op.OR "J" vmap

/-- xor-long/2addr vA, vB. -/
def xorlong2addr (ins : Ins) (vmap : VMap) : IRForm × VMap :=
  assign_binary_2addr_exp ins Op.XOR "J" vmap

/-- shl-long/2addr vA, vB. -/
def shllong2addr (ins : Ins) (vmap : VMap) : IRForm × VMap :=
  assign_binary_2addr_exp ins Op.LONGSHL "J" vmap

/-- shr-long/2addr vA, vB. -/
def shrlong2addr (ins : Ins) (vmap : VMap) : IRForm × VMap :=
  assign_binary_2addr_exp ins Op.LONGSHR "J" vmap

/-- ushr-long/2addr vA, vB. -/
def ushrlong2addr (ins : Ins) (vmap : VMap) : IRForm × VMap :=
  assign_binary_2addr_exp ins Op.LONGSHR "J" vmap

/-- add-float/2addr vA, vB. -/
def addfloat2addr (ins : Ins) (vmap : VMap) : IRForm × VMap :=
  assign_binary_2addr_exp ins Op.ADD "F" vmap

/-- sub-float/2addr vA, vB. -/
def subfloat2addr (ins : Ins) (vmap : VMap) : IRForm × VMap :=
  assign_binary_2addr_exp ins Op.SUB "F" vmap

/-- mul-float/2addr vA, vB. -/
def mulfloat2addr (ins : Ins) (vmap : VMap) : IRForm × VMap :=
  assign_binary_2addr_exp ins Op.MUL "F" vmap

/-- div-float/2addr vA, vB. -/
def divfloat2addr (ins : Ins) (vmap : VMap) : IRForm × VMap :=
  assign_binary_2addr_exp ins Op.DIV "F" vmap

/-- rem-float/2addr vA, vB. -/
def remfloat2addr (ins : Ins) (vmap : VMap) : IRForm × VMap :=
  assign_binary_2addr_exp ins Op.MOD "F" vmap

/-- add-double/2addr vA, vB. -/
def adddouble2addr (ins : Ins) (vmap : VMap) : IRForm × VMap :=
  assign_binary_2addr_exp ins Op.ADD "D" vmap

/-- sub-double/2addr vA, vB. -/
def subdouble2addr (ins : Ins) (vmap : VMap) : IRForm × VMap :=
  assign_binary_2addr_exp ins Op.SUB "D" vmap

/-- mul-double/2addr vA, vB. -/
def muldouble2addr (ins : Ins) (vmap : VMap) : IRForm × VMap :=
  assign_binary_2addr_exp ins Op.MUL "D" vmap

/-- div-double/2addr vA, vB. -/
def divdouble2addr (ins : Ins) (vmap : VMap) : IRForm × VMap :=
  assign_binary_2addr_exp ins Op.DIV "D" vmap

/-- rem-double/2addr vA, vB. -/
def remdouble2addr (ins : Ins) (vmap : VMap) : IRForm × VMap :=
  assign_binary_2addr_exp ins Op.MOD "D" vmap

/-- add-int/lit16 vA, vB, CCCC. -/
def addintlit16 (ins : Ins) (vmap : VMap) : IRForm × VMap :=
  assign_lit Op.ADD ins.CCCC ins.A ins.B vmap

/-- mul-int/lit16 vA, vB, CCCC. -/
def mulintlit16 (ins : Ins) (vmap : VMap) : IRForm × VMap :=
  assign_lit Op.MUL ins.CCCC ins.A ins.B vmap

/-- div-int/lit16 vA, vB, CCCC. -/
def divintlit16 (ins : Ins) (vmap : VMap) : IRForm × VMap :=
  assign_lit Op.DIV ins.CCCC ins.A ins.B vmap

/-- rem-int/lit16 vA, vB, CCCC. -/
def remintlit16 (ins : Ins) (vmap : VMap) : IRForm × VMap :=
  assign_lit Op.MOD ins.CCCC ins.A ins.B vmap

/-- and-int/lit16 vA, vB, CCCC. -/
def andintlit16 (ins : Ins) (vmap : VMap) : IRForm × VMap :=
  assign_lit Op.AND ins.CCCC ins.A ins.B vmap

/-- or-int/lit16 vA, vB, CCCC. -/
def orintlit16 (ins : Ins) (vmap : VMap) : IRForm × VMap :=
  assign_lit Op.OR ins.CCCC ins.A ins.B vmap

/-- xor-int/lit16 vA, vB, CCCC. -/
def xorintlit16 (ins : Ins) (vmap : VMap) : IRForm × VMap :=
  assign_lit Op.XOR ins.CCCC ins.A ins.B vmap

/-- rsub-int vA, vB, CCCC: the constant is the left operand. -/
def rsubint (ins : Ins) (vmap : VMap) : IRForm × VMap :=
  let r := getVar2 vmap ins.A ins.B
  let cst := IRForm.Constant (.i ins.CCCC) "I" none
  (.AssignExpression (some r.1.1) (.BinaryExpressionLit Op.SUB cst r.1.2), r.2)

/-- add-int/lit8 vAA, vBB, CC: a negative literal folds into a
subtraction of its negation. -/
def addintlit8 (ins : Ins) (vmap : VMap) : IRForm × VMap :=
  let lo := if ins.CC < 0 then (-ins.CC, Op.SUB) else (ins.CC, Op.ADD)
  assign_lit lo.2 lo.1 ins.AA ins.BB vmap

/-- rsub-int/lit8 vAA, vBB, CC: the constant is the left operand. -/
def rsubintlit8 (ins : Ins) (vmap : VMap) : IRForm × VMap :=
  let r := getVar2 vmap ins.AA ins.BB
  let cst := IRForm.Constant (.i ins.CC) "I" none
  (.AssignExpression (some r.1.1) (.BinaryExpressionLit Op.SUB cst r.1.2), r.2)

/-- mul-int/lit8 vAA, vBB, CC. -/
def mulintlit8 (ins : Ins) (vmap : VMap) : IRForm × VMap :=
  assign_lit Op.MUL ins.CC ins.AA ins.BB vmap

/-- div-int/lit8 vAA, vBB, CC. -/
def divintlit8 (ins : Ins) (vmap : VMap) : IRForm × VMap :=
  assign_lit Op.DIV ins.CC ins.AA ins.BB vmap

/-- rem-int/lit8 vAA, vBB, CC. -/
def remintlit8 (ins : Ins) (vmap : VMap) : IRForm × VMap :=
  assign_lit Op.MOD ins.CC ins.AA ins.BB vmap

/-- and-int/lit8 vAA, vBB, CC. -/
def andintlit8 (ins : Ins) (vmap : VMap) : IRForm × VMap :=
  assign_lit Op.AND ins.CC ins.AA ins.BB vmap

/-- or-int/lit8 vAA, vBB, CC. -/
def orintlit8 (ins : Ins) (vmap : VMap) : IRForm × VMap :=
  assign_lit Op.OR ins.CC ins.AA ins.BB vmap

/-- xor-int/lit8 vAA, vBB, CC. -/
def xorintlit8 (ins : Ins) (vmap : VMap) : IRForm × VMap :=
  assign_lit Op.XOR ins.CC ins.AA ins.BB vmap

/-- shl-int/lit8 vAA, vBB, CC. -/
def shlintlit8 (ins : Ins) (vmap : VMap) : IRForm × VMap :=
  assign_lit Op.INTSHL ins.CC ins.AA ins.BB vmap

/-- shr-int/lit8 vAA, vBB, CC. -/
def shrintlit8 (ins : Ins) (vmap : VMap) : IRForm × VMap :=
  assign_lit Op.INTSHR ins.CC ins.AA ins.BB vmap

/-- ushr-int/lit8 vAA, vBB, CC. -/
def ushrintlit8 (ins : Ins) (vmap : VMap) : IRForm × VMap :=
  assign_lit Op.INTSHR ins.CC ins.AA ins.BB vmap

/-- The extra arguments some lowering rules need, bundled so the dispatch
table has a uniform entry type: the return-name generator for invokes, the
pending return value for move-result and filled-new-array, the catch type
for move-exception, and the payload for fill-array-data. -/
structure Extras where
  gen : GenInvokeRetName
  retv : IRForm
  ty : String
  payload : Option Nat

/-- The uniform result of a dispatched lowering rule: the produced IR node
(none when the Python handler raises), the updated register map, and the
updated return-name generator. -/
structure HOut where
  node : Option IRForm
  vmap : VMap
  gen : GenInvokeRetName

/-- Uniform type of a dispatch-table entry. -/
abbrev Handler := Ins → VMap → Extras → HOut

/-- Table adapter for a rule taking only (ins, vmap). -/
def lift2 (f : Ins → VMap → IRForm × VMap) : Handler :=
  fun ins m ex => ⟨some (f ins m).1, (f ins m).2, ex.gen⟩

/-- Table adapter for a rule taking the pending return value. -/
def liftRet (f : Ins → VMap → IRForm → IRForm × VMap) : Handler :=
  fun ins m ex => ⟨some (f ins m ex.retv).1, (f ins m ex.retv).2, ex.gen⟩

/-- Table adapter for a rule taking the catch type. -/
def liftTy (f : Ins → VMap → String → IRForm × VMap) : Handler :=
  fun ins m ex => ⟨some (f ins m ex.ty).1, (f ins m ex.ty).2, ex.gen⟩

/-- Table adapter for a rule taking the payload. -/
def liftPay (f : Ins → VMap → Option Nat → IRForm × VMap) : Handler :=
  fun ins m ex => ⟨some (f ins m ex.payload).1, (f ins m ex.payload).2, ex.gen⟩

/-- Table adapter for an invoke rule threading the return-name generator. -/
def liftInv (f : Ins → VMap → GenInvokeRetName →
    Option IRForm × VMap × GenInvokeRetName) : Handler :=
  fun ins m ex =>
    ⟨(f ins m ex.gen).1, (f ins m ex.gen).2.1, (f ins m ex.gen).2.2⟩

/-- The opcode dispatch table, entry k lowering opcode byte k, in the
exact order of the source table (reserved slots map to nop). -/
def INSTRUCTION_SET : List Handler := [
  lift2 nop,
  lift2 move,
  lift2 movefrom16,
  lift2 move16,
  lift2 movewide,
  lift2 movewidefrom16,
  lift2 movewide16,
  lift2 moveobject,
  lift2 moveobjectfrom16,
  lift2 moveobject16,
  liftRet moveresult,
  liftRet moveresultwide,
  liftRet moveresultobject,
  liftTy moveexception,
  lift2 returnvoid,
  lift2 return_reg,
  lift2 returnwide,
  lift2 returnobject,
  lift2 const4,
  lift2 const16,
  lift2 const,
  lift2 consthigh16,
  lift2 constwide16,
  lift2 constwide32,
  lift2 constwide,
  lift2 constwidehigh16,
  lift2 conststring,
  lift2 conststringjumbo,
  lift2 constclass,
  lift2 monitorenter,
  lift2 monitorexit,
  lift2 checkcast,
  lift2 instanceof,
  lift2 arraylength,
  lift2 newinstance,
  lift2 newarray,
  liftRet fillednewarray,
  liftRet fillednewarrayrange,
  liftPay fillarraydata,
  lift2 throwop,
  lift2 goto,
  lift2 goto16,
  lift2 goto32,
  lift2 packedswitch,
  lift2 sparseswitch,
  lift2 cmplfloat,
  lift2 cmpgfloat,
  lift2 cmpldouble,
  lift2 cmpgdouble,
  lift2 cmplong,
  lift2 ifeq,
  lift2 ifne,
  lift2 iflt,
  lift2 ifge,
  lift2 ifgt,
  lift2 ifle,
  lift2 ifeqz,
  lift2 ifnez,
  lift2 ifltz,
  lift2 ifgez,
  lift2 ifgtz,
  lift2 iflez,
  lift2 nop,
  lift2 nop,
  lift2 nop,
  lift2 nop,
  lift2 nop,
  lift2 nop,
  lift2 aget,
  lift2 agetwide,
  lift2 agetobject,
  lift2 agetboolean,
  lift2 agetbyte,
  lift2 agetchar,
  lift2 agetshort,
  lift2 aput,
  lift2 aputwide,
  lift2 aputobject,
  lift2 aputboolean,
  lift2 aputbyte,
  lift2 aputchar,
  lift2 aputshort,
  lift2 iget,
  lift2 igetwide,
  lift2 igetobject,
  lift2 igetboolean,
  lift2 igetbyte,
  lift2 igetchar,
  lift2 igetshort,
  lift2 iput,
  lift2 iputwide,
  lift2 iputobject,
  lift2 iputboolean,
  lift2 iputbyte,
  lift2 iputchar,
  lift2 iputshort,
  lift2 sget,
  lift2 sgetwide,
  lift2 sgetobject,
  lift2 sgetboolean,
  lift2 sgetbyte,
  lift2 sgetchar,
  lift2 sgetshort,
  lift2 sput,
  lift2 sputwide,
  lift2 sputobject,
  lift2 sputboolean,
  lift2 sputbyte,
  lift2 sputchar,
  lift2 sputshort,
  liftInv invokevirtual,
  liftInv invokesuper,
  liftInv invokedirect,
  liftInv invokestatic,
  liftInv invokeinterface,
  lift2 nop,
  liftInv invokevirtualrange,
  liftInv invokesuperrange,
  liftInv invokedirectrange,
  liftInv invokestaticrange,
  liftInv invokeinterfacerange,
  lift2 nop,
  lift2 nop,
  lift2 negint,
  lift2 notint,
  lift2 neglong,
  lift2 notlong,
  lift2 negfloat,
  lift2 negdouble,
  lift2 inttolong,
  lift2 inttofloat,
  lift2 inttodouble,
  lift2 longtoint,
  lift2 longtofloat,
  lift2 longtodouble,
  lift2 floattoint,
  lift2 floattolong,
  lift2 floattodouble,
  lift2 doubletoint,
  lift2 doubletolong,
  lift2 doubletofloat,
  lift2 inttobyte,
  lift2 inttochar,
  lift2 inttoshort,
  lift2 addint,
  lift2 subint,
  lift2 mulint,
  lift2 divint,
  lift2 remint,
  lift2 andint,
  lift2 orint,
  lift2 xorint,
  lift2 shlint,
  lift2 shrint,
  lift2 ushrint,
  lift2 addlong,
  lift2 sublong,
  lift2 mullong,
  lift2 divlong,
  lift2 remlong,
  lift2 andlong,
  lift2 orlong,
  lift2 xorlong,
  lift2 shllong,
  lift2 shrlong,
  lift2 ushrlong,
  lift2 addfloat,
  lift2 subfloat,
  lift2 mulfloat,
  lift2 divfloat,
  lift2 remfloat,
  lift2 adddouble,
  lift2 subdouble,
  lift2 muldouble,
  lift2 divdouble,
  lift2 remdouble,
  lift2 addint2addr,
  lift2 subint2addr,
  lift2 mulint2addr,
  lift2 divint2addr,
  lift2 remint2addr,
  lift2 andint2addr,
  lift2 orint2addr,
  lift2 xorint2addr,
  lift2 shlint2addr,
  lift2 shrint2addr,
  lift2 ushrint2addr,
  lift2 addlong2addr,
  lift2 sublong2addr,
  lift2 mullong2addr,
  lift2 divlong2addr,
  lift2 remlong2addr,
  lift2 andlong2addr,
  lift2 orlong2addr,
  lift2 xorlong2addr,
  lift2 shllong2addr,
  lift2 shrlong2addr,
  lift2 ushrlong2addr,
  lift2 addfloat2addr,
  lift2 subfloat2addr,
  lift2 mulfloat2addr,
  lift2 divfloat2addr,
  lift2 remfloat2addr,
  lift2 adddouble2addr,
  lift2 subdouble2addr,
  lift2 muldouble2addr,
  lift2 divdouble2addr,
  lift2 remdouble2addr,
  lift2 addintlit16,
  lift2 rsubint,
  lift2 mulintlit16,
  lift2 divintlit16,
  lift2 remintlit16,
  lift2 andintlit16,
  lift2 orintlit16,
  lift2 xorintlit16,
  lift2 addintlit8,
  lift2 rsubintlit8,
  lift2 mulintlit8,
  lift2 divintlit8,
  lift2 remintlit8,
  lift2 andintlit8,
  lift2 orintlit8,
  lift2 xorintlit8,
  lift2 shlintlit8,
  lift2 shrintlit8,
  lift2 ushrintlit8
]

/-- Extract the assignment lhs from a lowering result node. -/
def assignLhs : Option IRForm → Option (Option IRForm)
  | some (.AssignExpression l _) => some l
  | _ => none

/-- Extract the operator token of the BinaryExpression on the rhs of an
assignment node. -/
def binOpOf : IRForm → Option String
  | .AssignExpression _ (.BinaryExpression op _ _ _) => some op
  | _ => none

/-- Extract the type tag of the BinaryExpression on the rhs of an assignment
node. -/
def binTyOf : IRForm → Option String
  | .AssignExpression _ (.BinaryExpression _ _ _ t) => some t
  | _ => none

/-- Boolean test that an extracted assignment lhs is the None lhs. -/
def isNoneLhs : Option (Option IRForm) → Bool
  | some none => true
  | _ => false

/-- A register map each entry of which is the canonical Variable of its key,
as holds for the empty map a fresh method lowering starts from. -/
def Canon (m : VMap) : Prop :=
  ∀ v n, vlookup m v = some n → n = IRForm.Variable v

/-- One register map extends another: every present entry is kept as is. -/
def MapExtends (m m2 : VMap) : Prop :=
  ∀ v n, vlookup m v = some n → vlookup m2 v = some n

/-- A concrete method reference with void return type and no parameters. -/
def mrefV : MethodRef := ⟨"LA;", "f", [], "V", ("LA;", "f", "()V")⟩

/-- A concrete constant pool for test instructions. -/
def cmTriv : CM := ⟨fun _ => "LA;", fun _ => ("LB;", "I", "fld"), fun _ => mrefV⟩

/-- A concrete instruction template over cmTriv (all operand fields zero). -/
def insT : Ins := { cm := cmTriv }

/-- A lit8 instruction with a negative signed literal. -/
def insLit : Ins := { cm := cmTriv, AA := 0, BB := 1, CC := -7 }

/-- A range-invoke instruction whose register range is empty. -/
def insRange10 : Ins := { cm := cmTriv, CCCC := 1, NNNN := 0 }

/-- A range-invoke instruction whose register range is the single register 0. -/
def insRange00 : Ins := { cm := cmTriv, CCCC := 0, NNNN := 0 }

/-- A register map binding register 0 to the ThisParam receiver. -/
def vmThis : VMap := [(0, IRForm.ThisParam 0)]

/-- A fresh return-name generator. -/
def gen0 : GenInvokeRetName := ⟨0, none⟩

/-- Concrete extras for exercising dispatch-table entries. -/
def exT : Extras := ⟨gen0, IRForm.NopExpression, "", none⟩

theorem MapExtends.rfl (m : VMap) : MapExtends m m := fun _ _ h => h

theorem MapExtends.trans {a b c : VMap} (h1 : MapExtends a b)
    (h2 : MapExtends b c) : MapExtends a c :=
  fun v n h => h2 v n (h1 v n h)

theorem vlookup_cons_self (m : VMap) (v : Int) (n : IRForm) :
    vlookup ((v, n) :: m) v = some n := by
  simp [vlookup]

theorem getVar_extends (m : VMap) (v : Int) : MapExtends m (getVar m v).2 := by
  intro w n h
  unfold getVar
  cases hv : vlookup m v with
  | some x => exact h
  | none =>
    by_cases hw : w = v
    · subst hw; rw [h] at hv; cases hv
    · simpa [vlookup, hw] using h

theorem getVar2_extends (m : VMap) (a b : Int) :
    MapExtends m (getVar2 m a b).2 :=
  (getVar_extends m a).trans (getVar_extends (getVar m a).2 b)

theorem getVar3_extends (m : VMap) (a b c : Int) :
    MapExtends m (getVar3 m a b c).2 :=
  ((getVar_extends m a).trans
    (getVar_extends (getVar m a).2 b)).trans
    (getVar_extends (getVar (getVar m a).2 b).2 c)

theorem getVar5_extends (m : VMap) (a b c d e : Int) :
    MapExtends m (getVar5 m a b c d e).2 :=
  ((((getVar_extends m a).trans
    (getVar_extends (getVar m a).2 b)).trans
    (getVar_extends (getVar (getVar m a).2 b).2 c)).trans
    (getVar_extends (getVar (getVar (getVar m a).2 b).2 c).2 d)).trans
    (getVar_extends (getVar (getVar (getVar (getVar m a).2 b).2 c).2 d).2 e)

theorem getVars_extends (m : VMap) (vs : List Int) :
    MapExtends m (getVars m vs).2 := by
  induction vs generalizing m with
  | nil => exact MapExtends.rfl m
  | cons v vs ih => exact (getVar_extends m v).trans (ih (getVar m v).2)

theorem get_args_extends (m : VMap) (pt : List String) (largs : List Int) :
    MapExtends m (get_args m pt largs).vmap := by
  unfold get_args
  split
  · exact MapExtends.rfl m
  · cases h : collectArgs pt largs 0 with
    | none => simp only [h]; exact MapExtends.rfl m
    | some regs => simp only [h]; exact getVars_extends m regs

theorem invokevirtual_extends (ins : Ins) (m : VMap) (g : GenInvokeRetName) :
    MapExtends m (invokevirtual ins m g).2.1 := by
  unfold invokevirtual
  cases h : (get_args m
      (get_params_type (ins.cm.getMethodRef ins.BBBB).paramTypeRaw)
      [ins.D, ins.E, ins.F, ins.G]).args with
  | none => simp only [h]; exact get_args_extends m _ _
  | some args =>
    simp only [h]
    exact (get_args_extends m _ _).trans (getVar_extends _ ins.C)

theorem invokesuper_extends (ins : Ins) (m : VMap) (g : GenInvokeRetName) :
    MapExtends m (invokesuper ins m g).2.1 := by
  unfold invokesuper
  cases h : (get_args m
      (get_params_type (ins.cm.getMethodRef ins.BBBB).paramTypeRaw)
      [ins.D, ins.E, ins.F, ins.G]).args with
  | none => simp only [h]; exact get_args_extends m _ _
  | some args => simp only [h]; exact get_args_extends m _ _

theorem invokedirect_extends (ins : Ins) (m : VMap) (g : GenInvokeRetName) :
    MapExtends m (invokedirect ins m g).2.1 := by
  unfold invokedirect
  cases h : (get_args m
      (get_params_type (ins.cm.getMethodRef ins.BBBB).paramTypeRaw)
      [ins.D, ins.E, ins.F, ins.G]).args with
  | none => simp only [h]; exact get_args_extends m _ _
  | some args =>
    simp only [h]
    exact (get_args_extends m _ _).trans (getVar_extends _ ins.C)

theorem invokestatic_extends (ins : Ins) (m : VMap) (g : GenInvokeRetName) :
    MapExtends m (invokestatic ins m g).2.1 := by
  unfold invokestatic
  cases h : (get_args m
      (get_params_type (ins.cm.getMethodRef ins.BBBB).paramTypeRaw)
      [ins.C, ins.D, ins.E, ins.F, ins.G]).args with
  | none => simp only [h]; exact get_args_extends m _ _
  | some args => simp only [h]; exact get_args_extends m _ _

theorem invokeinterface_extends (ins : Ins) (m : VMap) (g : GenInvokeRetName) :
    MapExtends m (invokeinterface ins m g).2.1 := by
  unfold invokeinterface
  cases h : (get_args m
      (get_params_type (ins.cm.getMethodRef ins.BBBB).paramTypeRaw)
      [ins.D, ins.E, ins.F, ins.G]).args with
  | none => simp only [h]; exact get_args_extends m _ _
  | some args =>
    simp only [h]
    exact (get_args_extends m _ _).trans (getVar_extends _ ins.C)

theorem invokevirtualrange_extends (ins : Ins) (m : VMap) (g : GenInvokeRetName) :
    MapExtends m (invokevirtualrange ins m g).2.1 := by
  unfold invokevirtualrange
  cases hr : rangeList ins.CCCC ins.NNNN with
  | nil => exact MapExtends.rfl m
  | cons l0 rest =>
    cases h : (get_args (getVar m l0).2
        (get_params_type (ins.cm.getMethodRef ins.BBBB).paramTypeRaw) rest).args with
    | none =>
      simp only [h]
      exact (getVar_extends m l0).trans (get_args_extends _ _ _)
    | some args =>
      simp only [h]
      exact (getVar_extends m l0).trans (get_args_extends _ _ _)

theorem invokesuperrange_extends (ins : Ins) (m : VMap) (g : GenInvokeRetName) :
    MapExtends m (invokesuperrange ins m g).2.1 := by
  unfold invokesuperrange
  cases h : (get_args m
      (get_params_type (ins.cm.getMethodRef ins.BBBB).paramTypeRaw)
      ((rangeList ins.CCCC ins.NNNN).drop 1)).args with
  | none => simp only [h]; exact get_args_extends m _ _
  | some args =>
    simp only [h]
    exact (get_args_extends m _ _).trans (getVar_extends _ ins.CCCC)

theorem invokedirectrange_extends (ins : Ins) (m : VMap) (g : GenInvokeRetName) :
    MapExtends m (invokedirectrange ins m g).2.1 := by
  unfold invokedirectrange
  cases hr : rangeList ins.CCCC ins.NNNN with
  | nil => exact MapExtends.rfl m
  | cons l0 rest =>
    cases h : (get_args (getVar m l0).2
        (get_params_type (ins.cm.getMethodRef ins.BBBB).paramTypeRaw) rest).args with
    | none =>
      simp only [h]
      exact (getVar_extends m l0).trans (get_args_extends _ _ _)
    | some args =>
      simp only [h]
      exact ((getVar_extends m l0).trans (get_args_extends _ _ _)).trans
        (getVar_extends _ ins.CCCC)

theorem invokestaticrange_extends (ins : Ins) (m : VMap) (g : GenInvokeRetName) :
    MapExtends m (invokestaticrange ins m g).2.1 := by
  unfold invokestaticrange
  cases h : (get_args m
      (get_params_type (ins.cm.getMethodRef ins.BBBB).paramTypeRaw)
      (rangeList ins.CCCC ins.NNNN)).args with
  | none => simp only [h]; exact get_args_extends m _ _
  | some args => simp only [h]; exact get_args_extends m _ _

theorem invokeinterfacerange_extends (ins : Ins) (m : VMap) (g : GenInvokeRetName) :
    MapExtends m (invokeinterfacerange ins m g).2.1 := by
  unfold invokeinterfacerange
  cases hr : rangeList ins.CCCC ins.NNNN with
  | nil => exact MapExtends.rfl m
  | cons l0 rest =>
    cases h : (get_args (getVar m l0).2
        (get_params_type (ins.cm.getMethodRef ins.BBBB).paramTypeRaw) rest).args with
    | none =>
      simp only [h]
      exact (getVar_extends m l0).trans (get_args_extends _ _ _)
    | some args =>
      simp only [h]
      exact (getVar_extends m l0).trans (get_args_extends _ _ _)

theorem hext_lift2 {f : Ins → VMap → IRForm × VMap}
    (hf : ∀ ins m, MapExtends m (f ins m).2) :
    ∀ ins m ex, MapExtends m ((lift2 f) ins m ex).vmap :=
  fun ins m _ => hf ins m

theorem hext_liftRet {f : Ins → VMap → IRForm → IRForm × VMap}
    (hf : ∀ ins m rv, MapExtends m (f ins m rv).2) :
    ∀ ins m ex, MapExtends m ((liftRet f) ins m ex).vmap :=
  fun ins m ex => hf ins m ex.retv

theorem hext_liftTy {f : Ins → VMap → String → IRForm × VMap}
    (hf : ∀ ins m t, MapExtends m (f ins m t).2) :
    ∀ ins m ex, MapExtends m ((liftTy f) ins m ex).vmap :=
  fun ins m ex => hf ins m ex.ty

theorem hext_liftPay {f : Ins → VMap → Option Nat → IRForm × VMap}
    (hf : ∀ ins m p, MapExtends m (f ins m p).2) :
    ∀ ins m ex, MapExtends m ((liftPay f) ins m ex).vmap :=
  fun ins m ex => hf ins m ex.payload

theorem hext_liftInv {f : Ins → VMap → GenInvokeRetName →
    Option IRForm × VMap × GenInvokeRetName}
    (hf : ∀ ins m g, MapExtends m (f ins m g).2.1) :
    ∀ ins m ex, MapExtends m ((liftInv f) ins m ex).vmap :=
  fun ins m ex => hf ins m ex.gen

theorem canon_nil : Canon [] := fun _ _ h => Option.noConfusion h

theorem canon_getVar {m : VMap} (hc : Canon m) (v : Int) :
    Canon (getVar m v).2 := by
  intro w n h
  unfold getVar at h
  cases hv : vlookup m v with
  | some x => rw [hv] at h; exact hc w n h
  | none =>
    rw [hv] at h
    by_cases hw : w = v
    · subst hw
      rw [vlookup_cons_self] at h
      cases h
      rfl
    · rw [show vlookup ((v, IRForm.Variable v) :: m) w = vlookup m w from by
        simp [vlookup, hw]] at h
      exact hc w n h

theorem getVar_canon_val {m : VMap} (hc : Canon m) (v : Int) :
    (getVar m v).1 = IRForm.Variable v := by
  unfold getVar
  cases hv : vlookup m v with
  | some x => exact hc v x hv
  | none => rfl

theorem getVar2_canon_val {m : VMap} (hc : Canon m) (a b : Int) :
    (getVar2 m a b).1 = (IRForm.Variable a, IRForm.Variable b) := by
  show ((getVar m a).1, (getVar (getVar m a).2 b).1) = _
  rw [getVar_canon_val hc a, getVar_canon_val (canon_getVar hc a) b]

theorem getVar3_canon_val {m : VMap} (hc : Canon m) (a b c : Int) :
    (getVar3 m a b c).1 =
      (IRForm.Variable a, IRForm.Variable b, IRForm.Variable c) := by
  show ((getVar m a).1, (getVar (getVar m a).2 b).1,
    (getVar (getVar (getVar m a).2 b).2 c).1) = _
  rw [getVar_canon_val hc a, getVar_canon_val (canon_getVar hc a) b,
    getVar_canon_val (canon_getVar (canon_getVar hc a) b) c]

theorem collectArgs_walk (ts : List String) (largs : List Int) :
    ∀ i regs, collectArgs ts largs i = some regs →
      regs.length = ts.length ∧
      ∀ k, k < ts.length →
        regs.get? k = largs.get? (i + ((ts.take k).map get_type_size).sum) := by
  induction ts with
  | nil =>
    intro i regs h
    simp only [collectArgs, Option.some.injEq] at h
    subst h
    exact ⟨rfl, fun k hk => absurd hk (Nat.not_lt_zero k)⟩
  | cons t ts ih =>
    intro i regs h
    unfold collectArgs at h
    cases hp : largs.get? i with
    | none => rw [hp] at h; cases h
    | some p =>
      rw [hp] at h
      cases hrec : collectArgs ts largs (i + get_type_size t) with
      | none => rw [hrec] at h; cases h
      | some regs2 =>
        rw [hrec] at h
        simp only [Option.map_some', Option.some.injEq] at h
        subst h
        obtain ⟨hlen, hidx⟩ := ih (i + get_type_size t) regs2 hrec
        constructor
        · simp [hlen]
        · intro k hk
          cases k with
          | zero => simpa using hp.symm
          | succ k =>
            have hk2 : k < ts.length := by simpa using hk
            have := hidx k hk2
            simp only [List.get?_cons_succ, List.take_succ_cons, List.map_cons,
              List.sum_cons] at *
            rw [this]
            congr 1
            omega

/-- C7: the cmpl versus cmpg NaN distinction is collapsed: cmpl-float and
cmpg-float lower to identical results on any register map, and likewise
cmpl-double and cmpg-double; on a fresh register map the produced node is an
assignment of a "cmp" BinaryCompExpression over the canonical Variables of
AA, BB, CC with type tag F for the float pair and D for the double pair. -/
theorem cmp_collapse :
    (∀ ins m, cmplfloat ins m = cmpgfloat ins m) ∧
    (∀ ins m, cmpldouble ins m = cmpgdouble ins m) ∧
    (∀ ins, (cmplfloat ins []).1 =
      .AssignExpression (some (.Variable ins.AA))
        (.BinaryCompExpression "cmp" (.Variable ins.BB) (.Variable ins.CC) "F")) ∧
    (∀ ins, (cmpldouble ins []).1 =
      .AssignExpression (some (.Variable ins.AA))
        (.BinaryCompExpression "cmp" (.Variable ins.BB) (.Variable ins.CC) "D")) := by
  refine ⟨fun ins m => rfl, fun ins m => rfl, fun ins => ?_, fun ins => ?_⟩
  · show IRForm.AssignExpression (some (getVar3 [] ins.AA ins.BB ins.CC).1.1)
      (.BinaryCompExpression Op.CMP (getVar3 [] ins.AA ins.BB ins.CC).1.2.1
        (getVar3 [] ins.AA ins.BB ins.CC).1.2.2 "F") = _
    rw [getVar3_canon_val canon_nil]
    rfl
  · show IRForm.AssignExpression (some (getVar3 [] ins.AA ins.BB ins.CC).1.1)
      (.BinaryCompExpression Op.CMP (getVar3 [] ins.AA ins.BB ins.CC).1.2.1
        (getVar3 [] ins.AA ins.BB ins.CC).1.2.2 "D") = _
    rw [getVar3_canon_val canon_nil]
    rfl

/-- C8: rsub-int and rsub-int/lit8 reverse the operand order: the immediate
Constant is the left operand of the subtraction and the source register is
the right operand; on a fresh register map the registers are the canonical
Variables of the destination and source fields. -/
theorem rsub_operand_order :
    (∀ ins m, rsubint ins m =
      (.AssignExpression (some (getVar2 m ins.A ins.B).1.1)
        (.BinaryExpressionLit Op.SUB (.Constant (.i ins.CCCC) "I" none)
          (getVar2 m ins.A ins.B).1.2), (getVar2 m ins.A ins.B).2)) ∧
    (∀ ins m, rsubintlit8 ins m =
      (.AssignExpression (some (getVar2 m ins.AA ins.BB).1.1)
        (.BinaryExpressionLit Op.SUB (.Constant (.i ins.CC) "I" none)
          (getVar2 m ins.AA ins.BB).1.2), (getVar2 m ins.AA ins.BB).2)) ∧
    (∀ ins, (rsubint ins []).1 =
      .AssignExpression (some (.Variable ins.A))
        (.BinaryExpressionLit Op.SUB (.Constant (.i ins.CCCC) "I" none)
          (.Variable ins.B))) ∧
    (∀ ins, (rsubintlit8 ins []).1 =
      .AssignExpression (some (.Variable ins.AA))
        (.BinaryExpressionLit Op.SUB (.Constant (.i ins.CC) "I" none)
          (.Variable ins.BB))) := by
  refine ⟨fun ins m => rfl, fun ins m => rfl, fun ins => ?_, fun ins => ?_⟩
  · show IRForm.AssignExpression (some (getVar2 [] ins.A ins.B).1.1)
      (.BinaryExpressionLit Op.SUB (.Constant (.i ins.CCCC) "I" none)
        (getVar2 [] ins.A ins.B).1.2) = _
    rw [getVar2_canon_val canon_nil]
  · show IRForm.AssignExpression (some (getVar2 [] ins.AA ins.BB).1.1)
      (.BinaryExpressionLit Op.SUB (.Constant (.i ins.CC) "I" none)
        (getVar2 [] ins.AA ins.BB).1.2) = _
    rw [getVar2_canon_val canon_nil]

/-- C9: constant type tags are chosen by opcode family: the four narrow
const opcodes tag I, the four wide ones tag J, the two string ones tag the
String descriptor; const/high16 and const-wide/high16 store the raw 16-bit
immediate unshifted. -/
theorem const_type_tags :
    (∀ ins m, const4 ins m =
      (.AssignExpression (some (getVar m ins.A).1)
        (.Constant (.i ins.B) "I" none), (getVar m ins.A).2)) ∧
    (∀ ins m, const16 ins m =
      (.AssignExpression (some (getVar m ins.AA).1)
        (.Constant (.i ins.BBBB) "I" none), (getVar m ins.AA).2)) ∧
    (∀ ins m, const ins m =
      (.AssignExpression (some (getVar m ins.AA).1)
        (.Constant (.i ins.BBBBBBBB) "I" none), (getVar m ins.AA).2)) ∧
    (∀ ins m, consthigh16 ins m =
      (.AssignExpression (some (getVar m ins.AA).1)
        (.Constant (.i ins.BBBB) "I" none), (getVar m ins.AA).2)) ∧
    (∀ ins m, constwide16 ins m =
      (.AssignExpression (some (getVar m ins.AA).1)
        (.Constant (.i ins.BBBB) "J" none), (getVar m ins.AA).2)) ∧
    (∀ ins m, constwide32 ins m =
      (.AssignExpression (some (getVar m ins.AA).1)
        (.Constant (.i ins.BBBBBBBB) "J" none), (getVar m ins.AA).2)) ∧
    (∀ ins m, constwide ins m =
      (.AssignExpression (some (getVar m ins.AA).1)
        (.Constant (.i ins.BBBBBBBBBBBBBBBB) "J" none), (getVar m ins.AA).2)) ∧
    (∀ ins m, constwidehigh16 ins m =
      (.AssignExpression (some (getVar m ins.AA).1)
        (.Constant (.i ins.BBBB) "J" none), (getVar m ins.AA).2)) ∧
    (∀ ins m, conststring ins m =
      (.AssignExpression (some (getVar m ins.AA).1)
        (.Constant (.s ins.rawString) "Ljava/lang/String;" none),
        (getVar m ins.AA).2)) ∧
    (∀ ins m, conststringjumbo ins m =
      (.AssignExpression (some (getVar m ins.AA).1)
        (.Constant (.s ins.rawString) "Ljava/lang/String;" none),
        (getVar m ins.AA).2)) :=
  ⟨fun _ _ => rfl, fun _ _ => rfl, fun _ _ => rfl, fun _ _ => rfl,
   fun _ _ => rfl, fun _ _ => rfl, fun _ _ => rfl, fun _ _ => rfl,
   fun _ _ => rfl, fun _ _ => rfl⟩

/-- C5: add-int/lit8 is the only literal opcode with sign folding: a
negative signed literal CC lowers to a SUB against its absolute value, a
non-negative one to an ADD with the literal as given; every other lit
opcode passes its literal through unchanged with its own operator. -/
theorem addintlit8_sign_folding :
    (∀ ins m, ins.CC < 0 →
      addintlit8 ins m =
        (.AssignExpression (some (getVar2 m ins.AA ins.BB).1.1)
          (.BinaryExpressionLit Op.SUB (getVar2 m ins.AA ins.BB).1.2
            (.Constant (.i (ins.CC.natAbs : Int)) "I" none)),
          (getVar2 m ins.AA ins.BB).2)) ∧
    (∀ ins m, 0 ≤ ins.CC →
      addintlit8 ins m =
        (.AssignExpression (some (getVar2 m ins.AA ins.BB).1.1)
          (.BinaryExpressionLit Op.ADD (getVar2 m ins.AA ins.BB).1.2
            (.Constant (.i ins.CC) "I" none)),
          (getVar2 m ins.AA ins.BB).2)) ∧
    (∀ ins m, addintlit16 ins m = assign_lit Op.ADD ins.CCCC ins.A ins.B m) ∧
    (∀ ins m, mulintlit16 ins m = assign_lit Op.MUL ins.CCCC ins.A ins.B m) ∧
    (∀ ins m, divintlit16 ins m = assign_lit Op.DIV ins.CCCC ins.A ins.B m) ∧
    (∀ ins m, remintlit16 ins m = assign_lit Op.MOD ins.CCCC ins.A ins.B m) ∧
    (∀ ins m, andintlit16 ins m = assign_lit Op.AND ins.CCCC ins.A ins.B m) ∧
    (∀ ins m, orintlit16 ins m = assign_lit Op.OR ins.CCCC ins.A ins.B m) ∧
    (∀ ins m, xorintlit16 ins m = assign_lit Op.XOR ins.CCCC ins.A ins.B m) ∧
    (∀ ins m, mulintlit8 ins m = assign_lit Op.MUL ins.CC ins.AA ins.BB m) ∧
    (∀ ins m, divintlit8 ins m = assign_lit Op.DIV ins.CC ins.AA ins.BB m) ∧
    (∀ ins m, remintlit8 ins m = assign_lit Op.MOD ins.CC ins.AA ins.BB m) ∧
    (∀ ins m, andintlit8 ins m = assign_lit Op.AND ins.CC ins.AA ins.BB m) ∧
    (∀ ins m, orintlit8 ins m = assign_lit Op.OR ins.CC ins.AA ins.BB m) ∧
    (∀ ins m, xorintlit8 ins m = assign_lit Op.XOR ins.CC ins.AA ins.BB m) ∧
    (∀ ins m, shlintlit8 ins m = assign_lit Op.INTSHL ins.CC ins.AA ins.BB m) ∧
    (∀ ins m, shrintlit8 ins m = assign_lit Op.INTSHR ins.CC ins.AA ins.BB m) ∧
    (∀ ins m, ushrintlit8 ins m = assign_lit Op.INTSHR ins.CC ins.AA ins.BB m) := by
  refine ⟨?_, ?_, fun _ _ => rfl, fun _ _ => rfl, fun _ _ => rfl, fun _ _ => rfl,
    fun _ _ => rfl, fun _ _ => rfl, fun _ _ => rfl, fun _ _ => rfl,
    fun _ _ => rfl, fun _ _ => rfl, fun _ _ => rfl, fun _ _ => rfl,
    fun _ _ => rfl, fun _ _ => rfl, fun _ _ => rfl, fun _ _ => rfl⟩
  · intro ins m h
    have hn : (ins.CC.natAbs : Int) = -ins.CC :=
      Int.ofNat_natAbs_of_nonpos (le_of_lt h)
    have hu : addintlit8 ins m = assign_lit Op.SUB (-ins.CC) ins.AA ins.BB m := by
      unfold addintlit8
      rw [if_pos h]
    rw [hu, hn]
    rfl
  · intro ins m h
    have hu : addintlit8 ins m = assign_lit Op.ADD ins.CC ins.AA ins.BB m := by
      unfold addintlit8
      rw [if_neg (not_lt.mpr h)]
    rw [hu]
    rfl

/-- C6 counterexample: the operator token stored in the IR for shl-int is
the very same string as the one stored for shl-long, and likewise for the
right shifts, so the int and long shift tokens are not distinct. -/
theorem shift_tokens_equal_counterexample :
    binOpOf (shlint insT []).1 = binOpOf (shllong insT []).1 ∧
    binOpOf (shrint insT []).1 = binOpOf (shrlong insT []).1 ∧
    binOpOf (shlint insT []).1 = some "<<" ∧
    binOpOf (shrint insT []).1 = some ">>" :=
  ⟨rfl, rfl, rfl, rfl⟩

/-- C6 amended: the Op class declares separate names INTSHL/INTSHR and
LONGSHL/LONGSHR but with equal token values, so the stored operator token
of an int shift equals that of the corresponding long shift; the int
versus long distinction survives only in the type tag of the produced
BinaryExpression (I versus J), which differ. -/
theorem shift_tokens_amended :
    Op.INTSHL = Op.LONGSHL ∧ Op.INTSHR = Op.LONGSHR ∧
    (∀ ins m, binOpOf (shlint ins m).1 = binOpOf (shllong ins m).1) ∧
    (∀ ins m, binOpOf (shrint ins m).1 = binOpOf (shrlong ins m).1) ∧
    (∀ ins m, binOpOf (ushrint ins m).1 = binOpOf (ushrlong ins m).1) ∧
    (∀ ins m, binTyOf (shlint ins m).1 = some "I" ∧
      binTyOf (shllong ins m).1 = some "J") ∧
    (∀ ins m, binTyOf (shrint ins m).1 = some "I" ∧
      binTyOf (shrlong ins m).1 = some "J") ∧
    (∀ ins m, binTyOf (ushrint ins m).1 = some "I" ∧
      binTyOf (ushrlong ins m).1 = some "J") ∧
    (("I" : String) == "J") = false :=
  ⟨rfl, rfl, fun _ _ => rfl, fun _ _ => rfl, fun _ _ => rfl,
   fun _ _ => ⟨rfl, rfl⟩, fun _ _ => ⟨rfl, rfl⟩, fun _ _ => ⟨rfl, rfl⟩, rfl⟩

/-- C3: register-map lookup is idempotent and identity-preserving: a first
lookup of an absent register installs a fresh Variable, a lookup of a
present register returns the stored node with the map unchanged, a repeated
lookup returns the same node and map, and check-cast feeds the single
looked-up node both into the assignment lhs and into the operand of its
CheckCastExpression. -/
theorem register_map_identity :
    (∀ m v, vlookup m v = none →
      getVar m v = (IRForm.Variable v, (v, IRForm.Variable v) :: m)) ∧
    (∀ m v n, vlookup m v = some n → getVar m v = (n, m)) ∧
    (∀ m v, getVar (getVar m v).2 v = ((getVar m v).1, (getVar m v).2)) ∧
    (∀ ins m, checkcast ins m =
      (.AssignExpression (some (getVar m ins.AA).1)
        (.CheckCastExpression (getVar m ins.AA).1
          (get_type ins.translatedKind) (some ins.translatedKind)),
        (getVar m ins.AA).2)) := by
  refine ⟨?_, ?_, ?_, fun _ _ => rfl⟩
  · intro m v h
    unfold getVar
    rw [h]
  · intro m v n h
    unfold getVar
    rw [h]
  · intro m v
    cases hv : vlookup m v with
    | some n => simp [getVar, hv]
    | none => simp [getVar, hv, vlookup_cons_self]

/-- C3 witness: concrete instances of the register-map identity facts. -/
theorem register_map_identity_witness :
    getVar ([] : VMap) 5 = (IRForm.Variable 5, [(5, IRForm.Variable 5)]) ∧
    getVar vmThis 0 = (IRForm.ThisParam 0, vmThis) :=
  ⟨register_map_identity.1 [] 5 rfl,
   register_map_identity.2.1 vmThis 0 (IRForm.ThisParam 0) rfl⟩

/-- C5 witness: the folding at the concrete literals -7 and 0. -/
theorem addintlit8_sign_folding_witness :
    addintlit8 insLit [] =
      (.AssignExpression (some (.Variable 0))
        (.BinaryExpressionLit "-" (.Variable 1) (.Constant (.i 7) "I" none)),
        [(1, .Variable 1), (0, .Variable 0)]) ∧
    addintlit8 insT [] =
      (.AssignExpression (some (.Variable 0))
        (.BinaryExpressionLit "+" (.Variable 0) (.Constant (.i 0) "I" none)),
        [(0, .Variable 0)]) :=
  ⟨addintlit8_sign_folding.1 insLit [] (by decide),
   addintlit8_sign_folding.2.1 insT [] (by decide)⟩

/-- C2: get_args walks the declared parameter list taking the register at
the running index and advancing it by the slot size of each parameter type
(two for J and D, one otherwise), and whenever the parameter list is
strictly longer than the supplied registers it warns and returns the empty
argument list without touching the map and without raising. -/
theorem get_args_walk_and_guard :
    (∀ vmap pt largs, pt.length > largs.length →
      get_args vmap pt largs = ⟨some [], true, vmap⟩) ∧
    (get_type_size "J" = 2 ∧ get_type_size "D" = 2 ∧
      ∀ t, t ≠ "J" → t ≠ "D" → get_type_size t = 1) ∧
    (∀ pt largs regs, collectArgs pt largs 0 = some regs →
      regs.length = pt.length ∧
      ∀ k, k < pt.length → regs.get? k = largs.get? (slotIndex pt k)) ∧
    (∀ vmap pt largs regs, ¬ pt.length > largs.length →
      collectArgs pt largs 0 = some regs →
      get_args vmap pt largs =
        ⟨some (getVars vmap regs).1, false, (getVars vmap regs).2⟩) := by
  refine ⟨?_, ⟨rfl, rfl, ?_⟩, ?_, ?_⟩
  · intro vmap pt largs h
    unfold get_args
    rw [if_pos h]
  · intro t h1 h2
    unfold get_type_size
    rw [if_neg]
    simp [h1, h2]
  · intro pt largs regs h
    have := collectArgs_walk pt largs 0 regs h
    simpa [slotIndex] using this
  · intro vmap pt largs regs h hcol
    unfold get_args
    rw [if_neg h, hcol]

/-- C2 witness: a concrete slot-packed walk over parameter types I, J, I
(the J parameter advances the index by two) and a concrete triggering of
the defensive guard. -/
theorem get_args_walk_and_guard_witness :
    get_args [] ["I"] [] = ⟨some [], true, []⟩ ∧
    ([10, 11, 13] : List Int).length = (["I", "J", "I"] : List String).length ∧
    ([10, 11, 13] : List Int).get? 2 =
      ([10, 11, 12, 13] : List Int).get? (slotIndex ["I", "J", "I"] 2) :=
  ⟨get_args_walk_and_guard.1 [] ["I"] [] (by decide),
   (get_args_walk_and_guard.2.2.1 ["I", "J", "I"] [10, 11, 12, 13]
     [10, 11, 13] rfl).1,
   (get_args_walk_and_guard.2.2.1 ["I", "J", "I"] [10, 11, 12, 13]
     [10, 11, 13] rfl).2 2 (by decide)⟩

/-- C4 (code bug): the spec claims lowering is total and never raises, but
invoke-virtual/range applied to an instruction with an empty argument
register range (CCCC = 1, NNNN = 0) indexes into the empty range list and
raises IndexError, modelled here by the none result, both at the handler
and through the dispatch-table adapter. -/
theorem invokevirtualrange_empty_range_raises :
    rangeList insRange10.CCCC insRange10.NNNN = [] ∧
    (invokevirtualrange insRange10 [] gen0).1 = none ∧
    ((liftInv invokevirtualrange) insRange10 [] exT).node = none :=
  ⟨rfl, rfl, rfl⟩

/-- C1 counterexample: invoke-direct/range of a void method whose receiver
register holds the ThisParam produces an assignment whose lhs is the
ThisParam receiver, not the None lhs the claim demands. -/
theorem invokedirectrange_thisparam_lhs_counterexample :
    isThisParam (getVar vmThis insRange00.CCCC).1 = true ∧
    (insRange00.cm.getMethodRef insRange00.BBBB).retType = "V" ∧
    assignLhs (invokedirectrange insRange00 vmThis gen0).1 =
      some (some (.ThisParam 0)) ∧
    isNoneLhs (assignLhs (invokedirectrange insRange00 vmThis gen0).1) = false :=
  ⟨rfl, rfl, rfl, rfl⟩

/-- C1 amended: for invoke-direct with void return type the lhs is None
exactly when the receiver from the register map is a ThisParam, and is
otherwise the receiver with the generator pinned to it; for
invoke-direct/range and invoke-super/range with void return type there is
no ThisParam test: the lhs is always the receiver looked up at the range
start register and set_to is always called on the generator with it. -/
theorem invoke_direct_void_lhs :
    (∀ ins m g args,
      (ins.cm.getMethodRef ins.BBBB).retType = "V" →
      (get_args m (get_params_type (ins.cm.getMethodRef ins.BBBB).paramTypeRaw)
        [ins.D, ins.E, ins.F, ins.G]).args = some args →
      (isThisParam (getVar (get_args m
          (get_params_type (ins.cm.getMethodRef ins.BBBB).paramTypeRaw)
          [ins.D, ins.E, ins.F, ins.G]).vmap ins.C).1 = true →
        assignLhs (invokedirect ins m g).1 = some none ∧
        (invokedirect ins m g).2.2 = g) ∧
      (isThisParam (getVar (get_args m
          (get_params_type (ins.cm.getMethodRef ins.BBBB).paramTypeRaw)
          [ins.D, ins.E, ins.F, ins.G]).vmap ins.C).1 = false →
        assignLhs (invokedirect ins m g).1 =
          some (some (getVar (get_args m
            (get_params_type (ins.cm.getMethodRef ins.BBBB).paramTypeRaw)
            [ins.D, ins.E, ins.F, ins.G]).vmap ins.C).1) ∧
        (invokedirect ins m g).2.2 =
          g.set_to (getVar (get_args m
            (get_params_type (ins.cm.getMethodRef ins.BBBB).paramTypeRaw)
            [ins.D, ins.E, ins.F, ins.G]).vmap ins.C).1)) ∧
    (∀ ins m g args l0 rest,
      (ins.cm.getMethodRef ins.BBBB).retType = "V" →
      rangeList ins.CCCC ins.NNNN = l0 :: rest →
      (get_args (getVar m l0).2
        (get_params_type (ins.cm.getMethodRef ins.BBBB).paramTypeRaw)
        rest).args = some args →
      assignLhs (invokedirectrange ins m g).1 =
        some (some (getVar (get_args (getVar m l0).2
          (get_params_type (ins.cm.getMethodRef ins.BBBB).paramTypeRaw)
          rest).vmap ins.CCCC).1) ∧
      (invokedirectrange ins m g).2.2 =
        g.set_to (getVar (get_args (getVar m l0).2
          (get_params_type (ins.cm.getMethodRef ins.BBBB).paramTypeRaw)
          rest).vmap ins.CCCC).1) ∧
    (∀ ins m g args,
      (ins.cm.getMethodRef ins.BBBB).retType = "V" →
      (get_args m (get_params_type (ins.cm.getMethodRef ins.BBBB).paramTypeRaw)
        ((rangeList ins.CCCC ins.NNNN).drop 1)).args = some args →
      assignLhs (invokesuperrange ins m g).1 =
        some (some (getVar (get_args m
          (get_params_type (ins.cm.getMethodRef ins.BBBB).paramTypeRaw)
          ((rangeList ins.CCCC ins.NNNN).drop 1)).vmap ins.CCCC).1) ∧
      (invokesuperrange ins m g).2.2 =
        g.set_to (getVar (get_args m
          (get_params_type (ins.cm.getMethodRef ins.BBBB).paramTypeRaw)
          ((rangeList ins.CCCC ins.NNNN).drop 1)).vmap ins.CCCC).1) := by
  refine ⟨?_, ?_, ?_⟩
  · intro ins m g args hret hargs
    constructor
    · intro hthis
      simp only [invokedirect, hargs, hret, hthis]
      simp [assignLhs]
    · intro hthis
      simp only [invokedirect, hargs, hret, hthis]
      simp [assignLhs]
  · intro ins m g args l0 rest hret hr hargs
    simp only [invokedirectrange, hr, hargs, hret]
    simp [assignLhs]
  · intro ins m g args hret hargs
    simp only [invokesuperrange, hargs, hret]
    simp [assignLhs]

/-- C1 witness: concrete void invoke-direct with a non-ThisParam receiver
and concrete void invoke-direct/range, with the receiver as lhs and the
generator pinned to it. -/
theorem invoke_direct_void_lhs_witness :
    (assignLhs (invokedirect insT [] gen0).1 = some (some (.Variable 0)) ∧
      (invokedirect insT [] gen0).2.2 = gen0.set_to (.Variable 0)) ∧
    (assignLhs (invokedirectrange insRange00 [] gen0).1 =
        some (some (.Variable 0)) ∧
      (invokedirectrange insRange00 [] gen0).2.2 = gen0.set_to (.Variable 0)) :=
  ⟨(invoke_direct_void_lhs.1 insT [] gen0 [] rfl rfl).2 rfl,
   invoke_direct_void_lhs.2.1 insRange00 [] gen0 [] 0 [] rfl rfl rfl⟩

set_option maxRecDepth 8192 in
/-- C10: every lowering rule in the dispatch table preserves all existing
register-map entries: a register bound to a node before the rule runs is
bound to the very same node afterwards, since handlers only add entries
through setdefault. -/
theorem instruction_set_preserves_vmap :
    ∀ h ∈ INSTRUCTION_SET, ∀ ins m ex v n,
      vlookup m v = some n → vlookup ((h ins m ex).vmap) v = some n := by
  have hall : ∀ h ∈ INSTRUCTION_SET, ∀ ins m ex,
      MapExtends m ((h ins m ex).vmap) := by
    simp only [INSTRUCTION_SET, List.forall_mem_cons, List.forall_mem_ne,
      List.not_mem_nil, false_implies, implies_true, and_true]
    exact ⟨
      hext_lift2 (fun ins m => MapExtends.rfl m),
      hext_lift2 (fun ins m => getVar2_extends m ins.A ins.B),
      hext_lift2 (fun ins m => getVar2_extends m ins.AA ins.BBBB),
      hext_lift2 (fun ins m => getVar2_extends m ins.AAAA ins.BBBB),
      hext_lift2 (fun ins m => getVar2_extends m ins.A ins.B),
      hext_lift2 (fun ins m => getVar2_extends m ins.AA ins.BBBB),
      hext_lift2 (fun ins m => getVar2_extends m ins.AAAA ins.BBBB),
      hext_lift2 (fun ins m => getVar2_extends m ins.A ins.B),
      hext_lift2 (fun ins m => getVar2_extends m ins.AA ins.BBBB),
      hext_lift2 (fun ins m => getVar2_extends m ins.AAAA ins.BBBB),
      hext_liftRet (fun ins m rv => getVar_extends m ins.AA),
      hext_liftRet (fun ins m rv => getVar_extends m ins.AA),
      hext_liftRet (fun ins m rv => getVar_extends m ins.AA),
      hext_liftTy (fun ins m t => getVar_extends m ins.AA),
      hext_lift2 (fun ins m => MapExtends.rfl m),
      hext_lift2 (fun ins m => getVar_extends m ins.AA),
      hext_lift2 (fun ins m => getVar_extends m ins.AA),
      hext_lift2 (fun ins m => getVar_extends m ins.AA),
      hext_lift2 (fun ins m => getVar_extends m ins.A),
      hext_lift2 (fun ins m => getVar_extends m ins.AA),
      hext_lift2 (fun ins m => getVar_extends m ins.AA),
      hext_lift2 (fun ins m => getVar_extends m ins.AA),
      hext_lift2 (fun ins m => getVar_extends m ins.AA),
      hext_lift2 (fun ins m => getVar_extends m ins.AA),
      hext_lift2 (fun ins m => getVar_extends m ins.AA),
      hext_lift2 (fun ins m => getVar_extends m ins.AA),
      hext_lift2 (fun ins m => getVar_extends m ins.AA),
      hext_lift2 (fun ins m => getVar_extends m ins.AA),
      hext_lift2 (fun ins m => getVar_extends m ins.AA),
      hext_lift2 (fun ins m => getVar_extends m ins.AA),
      hext_lift2 (fun ins m => getVar_extends m ins.AA),
      hext_lift2 (fun ins m => getVar_extends m ins.AA),
      hext_lift2 (fun ins m => getVar2_extends m ins.A ins.B),
      hext_lift2 (fun ins m => getVar2_extends m ins.A ins.B),
      hext_lift2 (fun ins m => getVar_extends m ins.AA),
      hext_lift2 (fun ins m => getVar2_extends m ins.A ins.B),
      hext_liftRet (fun ins m rv => getVar5_extends m ins.C ins.D ins.E ins.F ins.G),
      hext_liftRet (fun ins m rv => getVar3_extends m ins.AA ins.CCCC ins.NNNN),
      hext_liftPay (fun ins m p => getVar_extends m ins.AA),
      hext_lift2 (fun ins m => getVar_extends m ins.AA),
      hext_lift2 (fun ins m => MapExtends.rfl m),
      hext_lift2 (fun ins m => MapExtends.rfl m),
      hext_lift2 (fun ins m => MapExtends.rfl m),
      hext_lift2 (fun ins m => getVar_extends m ins.AA),
      hext_lift2 (fun ins m => getVar_extends m ins.AA),
      hext_lift2 (fun ins m => getVar3_extends m ins.AA ins.BB ins.CC),
      hext_lift2 (fun ins m => getVar3_extends m ins.AA ins.BB ins.CC),
      hext_lift2 (fun ins m => getVar3_extends m ins.AA ins.BB ins.CC),
      hext_lift2 (fun ins m => getVar3_extends m ins.AA ins.BB ins.CC),
      hext_lift2 (fun ins m => getVar3_extends m ins.AA ins.BB ins.CC),
      hext_lift2 (fun ins m => getVar2_extends m ins.A ins.B),
      hext_lift2 (fun ins m => getVar2_extends m ins.A ins.B),
      hext_lift2 (fun ins m => getVar2_extends m ins.A ins.B),
      hext_lift2 (fun ins m => getVar2_extends m ins.A ins.B),
      hext_lift2 (fun ins m => getVar2_extends m ins.A ins.B),
      hext_lift2 (fun ins m => getVar2_extends m ins.A ins.B),
      hext_lift2 (fun ins m => getVar_extends m ins.AA),
      hext_lift2 (fun ins m => getVar_extends m ins.AA),
      hext_lift2 (fun ins m => getVar_extends m ins.AA),
      hext_lift2 (fun ins m => getVar_extends m ins.AA),
      hext_lift2 (fun ins m => getVar_extends m ins.AA),
      hext_lift2 (fun ins m => getVar_extends m ins.AA),
      hext_lift2 (fun ins m => MapExtends.rfl m),
      hext_lift2 (fun ins m => MapExtends.rfl m),
      hext_lift2 (fun ins m => MapExtends.rfl m),
      hext_lift2 (fun ins m => MapExtends.rfl m),
      hext_lift2 (fun ins m => MapExtends.rfl m),
      hext_lift2 (fun ins m => MapExtends.rfl m),
      hext_lift2 (fun ins m => getVar3_extends m ins.AA ins.BB ins.CC),
      hext_lift2 (fun ins m => getVar3_extends m ins.AA ins.BB ins.CC),
      hext_lift2 (fun ins m => getVar3_extends m ins.AA ins.BB ins.CC),
      hext_lift2 (fun ins m => getVar3_extends m ins.AA ins.BB ins.CC),
      hext_lift2 (fun ins m => getVar3_extends m ins.AA ins.BB ins.CC),
      hext_lift2 (fun ins m => getVar3_extends m ins.AA ins.BB ins.CC),
      hext_lift2 (fun ins m => getVar3_extends m ins.AA ins.BB ins.CC),
      hext_lift2 (fun ins m => getVar3_extends m ins.AA ins.BB ins.CC),
      hext_lift2 (fun ins m => getVar3_extends m ins.AA ins.BB ins.CC),
      hext_lift2 (fun ins m => getVar3_extends m ins.AA ins.BB ins.CC),
      hext_lift2 (fun ins m => getVar3_extends m ins.AA ins.BB ins.CC),
      hext_lift2 (fun ins m => getVar3_extends m ins.AA ins.BB ins.CC),
      hext_lift2 (fun ins m => getVar3_extends m ins.AA ins.BB ins.CC),
      hext_lift2 (fun ins m => getVar3_extends m ins.AA ins.BB ins.CC),
      hext_lift2 (fun ins m => getVar2_extends m ins.A ins.B),
      hext_lift2 (fun ins m => getVar2_extends m ins.A ins.B),
      hext_lift2 (fun ins m => getVar2_extends m ins.A ins.B),
      hext_lift2 (fun ins m => getVar2_extends m ins.A ins.B),
      hext_lift2 (fun ins m => getVar2_extends m ins.A ins.B),
      hext_lift2 (fun ins m => getVar2_extends m ins.A ins.B),
      hext_lift2 (fun ins m => getVar2_extends m ins.A ins.B),
      hext_lift2 (fun ins m => getVar2_extends m ins.A ins.B),
      hext_lift2 (fun ins m => getVar2_extends m ins.A ins.B),
      hext_lift2 (fun ins m => getVar2_extends m ins.A ins.B),
      hext_lift2 (fun ins m => getVar2_extends m ins.A ins.B),
      hext_lift2 (fun ins m => getVar2_extends m ins.A ins.B),
      hext_lift2 (fun ins m => getVar2_extends m ins.A ins.B),
      hext_lift2 (fun ins m => getVar2_extends m ins.A ins.B),
      hext_lift2 (fun ins m => getVar_extends m ins.AA),
      hext_lift2 (fun ins m => getVar_extends m ins.AA),
      hext_lift2 (fun ins m => getVar_extends m ins.AA),
      hext_lift2 (fun ins m => getVar_extends m ins.AA),
      hext_lift2 (fun ins m => getVar_extends m ins.AA),
      hext_lift2 (fun ins m => getVar_extends m ins.AA),
      hext_lift2 (fun ins m => getVar_extends m ins.AA),
      hext_lift2 (fun ins m => getVar_extends m ins.AA),
      hext_lift2 (fun ins m => getVar_extends m ins.AA),
      hext_lift2 (fun ins m => getVar_extends m ins.AA),
      hext_lift2 (fun ins m => getVar_extends m ins.AA),
      hext_lift2 (fun ins m => getVar_extends m ins.AA),
      hext_lift2 (fun ins m => getVar_extends m ins.AA),
      hext_lift2 (fun ins m => getVar_extends m ins.AA),
      hext_liftInv invokevirtual_extends,
      hext_liftInv invokesuper_extends,
      hext_liftInv invokedirect_extends,
      hext_liftInv invokestatic_extends,
      hext_liftInv invokeinterface_extends,
      hext_lift2 (fun ins m => MapExtends.rfl m),
      hext_liftInv invokevirtualrange_extends,
      hext_liftInv invokesuperrange_extends,
      hext_liftInv invokedirectrange_extends,
      hext_liftInv invokestaticrange_extends,
      hext_liftInv invokeinterfacerange_extends,
      hext_lift2 (fun ins m => MapExtends.rfl m),
      hext_lift2 (fun ins m => MapExtends.rfl m),
      hext_lift2 (fun ins m => getVar2_extends m ins.A ins.B),
      hext_lift2 (fun ins m => getVar2_extends m ins.A ins.B),
      hext_lift2 (fun ins m => getVar2_extends m ins.A ins.B),
      hext_lift2 (fun ins m => getVar2_extends m ins.A ins.B),
      hext_lift2 (fun ins m => getVar2_extends m ins.A ins.B),
      hext_lift2 (fun ins m => getVar2_extends m ins.A ins.B),
      hext_lift2 (fun ins m => getVar2_extends m ins.A ins.B),
      hext_lift2 (fun ins m => getVar2_extends m ins.A ins.B),
      hext_lift2 (fun ins m => getVar2_extends m ins.A ins.B),
      hext_lift2 (fun ins m => getVar2_extends m ins.A ins.B),
      hext_lift2 (fun ins m => getVar2_extends m ins.A ins.B),
      hext_lift2 (fun ins m => getVar2_extends m ins.A ins.B),
      hext_lift2 (fun ins m => getVar2_extends m ins.A ins.B),
      hext_lift2 (fun ins m => getVar2_extends m ins.A ins.B),
      hext_lift2 (fun ins m => getVar2_extends m ins.A ins.B),
      hext_lift2 (fun ins m => getVar2_extends m ins.A ins.B),
      hext_lift2 (fun ins m => getVar2_extends m ins.A ins.B),
      hext_lift2 (fun ins m => getVar2_extends m ins.A ins.B),
      hext_lift2 (fun ins m => getVar2_extends m ins.A ins.B),
      hext_lift2 (fun ins m => getVar2_extends m ins.A ins.B),
      hext_lift2 (fun ins m => getVar2_extends m ins.A ins.B),
      hext_lift2 (fun ins m => getVar3_extends m ins.AA ins.BB ins.CC),
      hext_lift2 (fun ins m => getVar3_extends m ins.AA ins.BB ins.CC),
      hext_lift2 (fun ins m => getVar3_extends m ins.AA ins.BB ins.CC),
      hext_lift2 (fun ins m => getVar3_extends m ins.AA ins.BB ins.CC),
      hext_lift2 (fun ins m => getVar3_extends m ins.AA ins.BB ins.CC),
      hext_lift2 (fun ins m => getVar3_extends m ins.AA ins.BB ins.CC),
      hext_lift2 (fun ins m => getVar3_extends m ins.AA ins.BB ins.CC),
      hext_lift2 (fun ins m => getVar3_extends m ins.AA ins.BB ins.CC),
      hext_lift2 (fun ins m => getVar3_extends m ins.AA ins.BB ins.CC),
      hext_lift2 (fun ins m => getVar3_extends m ins.AA ins.BB ins.CC),
      hext_lift2 (fun ins m => getVar3_extends m ins.AA ins.BB ins.CC),
      hext_lift2 (fun ins m => getVar3_extends m ins.AA ins.BB ins.CC),
      hext_lift2 (fun ins m => getVar3_extends m ins.AA ins.BB ins.CC),
      hext_lift2 (fun ins m => getVar3_extends m ins.AA ins.BB ins.CC),
      hext_lift2 (fun ins m => getVar3_extends m ins.AA ins.BB ins.CC),
      hext_lift2 (fun ins m => getVar3_extends m ins.AA ins.BB ins.CC),
      hext_lift2 (fun ins m => getVar3_extends m ins.AA ins.BB ins.CC),
      hext_lift2 (fun ins m => getVar3_extends m ins.AA ins.BB ins.CC),
      hext_lift2 (fun ins m => getVar3_extends m ins.AA ins.BB ins.CC),
      hext_lift2 (fun ins m => getVar3_extends m ins.AA ins.BB ins.CC),
      hext_lift2 (fun ins m => getVar3_extends m ins.AA ins.BB ins.CC),
      hext_lift2 (fun ins m => getVar3_extends m ins.AA ins.BB ins.CC),
      hext_lift2 (fun ins m => getVar3_extends m ins.AA ins.BB ins.CC),
      hext_lift2 (fun ins m => getVar3_extends m ins.AA ins.BB ins.CC),
      hext_lift2 (fun ins m => getVar3_extends m ins.AA ins.BB ins.CC),
      hext_lift2 (fun ins m => getVar3_extends m ins.AA ins.BB ins.CC),
      hext_lift2 (fun ins m => getVar3_extends m ins.AA ins.BB ins.CC),
      hext_lift2 (fun ins m => getVar3_extends m ins.AA ins.BB ins.CC),
      hext_lift2 (fun ins m => getVar3_extends m ins.AA ins.BB ins.CC),
      hext_lift2 (fun ins m => getVar3_extends m ins.AA ins.BB ins.CC),
      hext_lift2 (fun ins m => getVar3_extends m ins.AA ins.BB ins.CC),
      hext_lift2 (fun ins m => getVar3_extends m ins.AA ins.BB ins.CC),
      hext_lift2 (fun ins m => getVar2_extends m ins.A ins.B),
      hext_lift2 (fun ins m => getVar2_extends m ins.A ins.B),
      hext_lift2 (fun ins m => getVar2_extends m ins.A ins.B),
      hext_lift2 (fun ins m => getVar2_extends m ins.A ins.B),
      hext_lift2 (fun ins m => getVar2_extends m ins.A ins.B),
      hext_lift2 (fun ins m => getVar2_extends m ins.A ins.B),
      hext_lift2 (fun ins m => getVar2_extends m ins.A ins.B),
      hext_lift2 (fun ins m => getVar2_extends m ins.A ins.B),
      hext_lift2 (fun ins m => getVar2_extends m ins.A ins.B),
      hext_lift2 (fun ins m => getVar2_extends m ins.A ins.B),
      hext_lift2 (fun ins m => getVar2_extends m ins.A ins.B),
      hext_lift2 (fun ins m => getVar2_extends m ins.A ins.B),
      hext_lift2 (fun ins m => getVar2_extends m ins.A ins.B),
      hext_lift2 (fun ins m => getVar2_extends m ins.A ins.B),
      hext_lift2 (fun ins m => getVar2_extends m ins.A ins.B),
      hext_lift2 (fun ins m => getVar2_extends m ins.A ins.B),
      hext_lift2 (fun ins m => getVar2_extends m ins.A ins.B),
      hext_lift2 (fun ins m => getVar2_extends m ins.A ins.B),
      hext_lift2 (fun ins m => getVar2_extends m ins.A ins.B),
      hext_lift2 (fun ins m => getVar2_extends m ins.A ins.B),
      hext_lift2 (fun ins m => getVar2_extends m ins.A ins.B),
      hext_lift2 (fun ins m => getVar2_extends m ins.A ins.B),
      hext_lift2 (fun ins m => getVar2_extends m ins.A ins.B),
      hext_lift2 (fun ins m => getVar2_extends m ins.A ins.B),
      hext_lift2 (fun ins m => getVar2_extends m ins.A ins.B),
      hext_lift2 (fun ins m => getVar2_extends m ins.A ins.B),
      hext_lift2 (fun ins m => getVar2_extends m ins.A ins.B),
      hext_lift2 (fun ins m => getVar2_extends m ins.A ins.B),
      hext_lift2 (fun ins m => getVar2_extends m ins.A ins.B),
      hext_lift2 (fun ins m => getVar2_extends m ins.A ins.B),
      hext_lift2 (fun ins m => getVar2_extends m ins.A ins.B),
      hext_lift2 (fun ins m => getVar2_extends m ins.A ins.B),
      hext_lift2 (fun ins m => getVar2_extends m ins.A ins.B),
      hext_lift2 (fun ins m => getVar2_extends m ins.A ins.B),
      hext_lift2 (fun ins m => getVar2_extends m ins.A ins.B),
      hext_lift2 (fun ins m => getVar2_extends m ins.A ins.B),
      hext_lift2 (fun ins m => getVar2_extends m ins.A ins.B),
      hext_lift2 (fun ins m => getVar2_extends m ins.A ins.B),
      hext_lift2 (fun ins m => getVar2_extends m ins.A ins.B),
      hext_lift2 (fun ins m => getVar2_extends m ins.A ins.B),
      hext_lift2 (fun ins m => getVar2_extends m ins.AA ins.BB),
      hext_lift2 (fun ins m => getVar2_extends m ins.AA ins.BB),
      hext_lift2 (fun ins m => getVar2_extends m ins.AA ins.BB),
      hext_lift2 (fun ins m => getVar2_extends m ins.AA ins.BB),
      hext_lift2 (fun ins m => getVar2_extends m ins.AA ins.BB),
      hext_lift2 (fun ins m => getVar2_extends m ins.AA ins.BB),
      hext_lift2 (fun ins m => getVar2_extends m ins.AA ins.BB),
      hext_lift2 (fun ins m => getVar2_extends m ins.AA ins.BB),
      hext_lift2 (fun ins m => getVar2_extends m ins.AA ins.BB),
      hext_lift2 (fun ins m => getVar2_extends m ins.AA ins.BB),
      hext_lift2 (fun ins m => getVar2_extends m ins.AA ins.BB)
    ⟩
  exact fun h hm ins m ex v n hv => hall h hm ins m ex v n hv

/-- C10 witness: a concrete table entry applied over a concrete map keeps
the pre-existing binding of register 0. -/
theorem instruction_set_preserves_vmap_witness :
    vlookup (((lift2 nop) insT vmThis exT).vmap) 0 = some (IRForm.ThisParam 0) :=
  instruction_set_preserves_vmap (lift2 nop) (List.mem_cons_self _ _) insT
    vmThis exT 0 (IRForm.ThisParam 0) rfl
